import Mathlib

/-!
RelayNode client (`src/c++/client.cpp`)

A shallow embedding of the relay network client: the read loop of
`RelayNetworkClient::net_process`, the two write operations
`receive_transaction` / `receive_block`, the callback wiring of `main` and the
server selection loop of `main`.

Conventions of the embedding.

* A byte is a natural number (`0 .. 255`); a buffer is a `List Nat`.
* The three `uint32_t` fields of `relay_msg_header` are kept by the value of
  their four bytes in wire (big-endian) order.  `header.magic != RELAY_MAGIC_BYTES`
  and `header.type == X_TYPE` compare two 32-bit words, which agree exactly when
  their wire bytes agree, so the constants of `relayprocess.h` are taken by their
  wire value as well; `ntohl(header.length)` is the wire value of the length
  field.
* The header `relayprocess.h` (constants, `VERSION_STRING`, the compressor) and
  the connection layer (`read_all`, `maybe_do_send_bytes`) are not part of the
  source file: constants are parameters (`RelayConsts`), the compressor is an
  interface (`RelayNodeCompressor`), the socket is the list of bytes that are
  still to arrive (`inbound`) and a trace of the operations performed on the
  collaborators (`trace`).
-/

namespace RelayNode

/-! ## Bytes and headers -/

/-- Wire (big-endian) value of the first four bytes of a buffer. -/
def be32 : List Nat → Nat
  | b0 :: b1 :: b2 :: b3 :: _ =>
      (b0 % 256) * 2 ^ 24 + (b1 % 256) * 2 ^ 16 + (b2 % 256) * 2 ^ 8 + b3 % 256
  | _ => 0

/-- The four wire bytes of a 32-bit word (`htonl` followed by a store). -/
def be32_bytes (n : Nat) : List Nat :=
  [n / 2 ^ 24 % 256, n / 2 ^ 16 % 256, n / 2 ^ 8 % 256, n % 256]

/-- Record `struct relay_msg_header { uint32_t magic, type, length; }`,
each field by its wire value. -/
structure relay_msg_header where
  magic : Nat
  type : Nat
  length : Nat
  deriving DecidableEq, Repr

/-- The memory image of a header: twelve bytes, as handed to
`maybe_do_send_bytes((char*)&header, sizeof(header))`. -/
def relay_msg_header.bytes (h : relay_msg_header) : List Nat :=
  be32_bytes h.magic ++ be32_bytes h.type ++ be32_bytes h.length

/-- The header found in twelve bytes filled by `read_all((char*)&header, 4*3)`. -/
def parse_header (buf : List Nat) : relay_msg_header :=
  { magic := be32 buf, type := be32 (buf.drop 4), length := be32 (buf.drop 8) }

/-- The constants that `relayprocess.h` declares and `client.cpp` uses.
`VERSION_STRING` is the text of the string literal, without its terminator. -/
structure RelayConsts where
  RELAY_MAGIC_BYTES : Nat
  VERSION_TYPE : Nat
  SPONSOR_TYPE : Nat
  MAX_VERSION_TYPE : Nat
  BLOCK_TYPE : Nat
  END_BLOCK_TYPE : Nat
  TRANSACTION_TYPE : Nat
  VERSION_STRING : List Nat
  sizeof_bitcoin_msg_header : Nat

/-- The memory of the string literal `VERSION_STRING`: its text and the
terminating NUL. -/
def c_str (text : List Nat) : List Nat := text ++ [0]

/-- Value of `strlen(VERSION_STRING)`. -/
def strlen_VERSION_STRING (c : RelayConsts) : Nat := c.VERSION_STRING.length

/-- Value of `sizeof(VERSION_STRING)`: the size of the string literal, which
counts the terminating NUL. -/
def sizeof_VERSION_STRING (c : RelayConsts) : Nat := c.VERSION_STRING.length + 1

/-- C library `strncmp(s1, s2, n)`: at most `n` characters are compared, the
comparison stops at the first difference or after a NUL found in both.  The
result is the difference of the first pair that differs, `0` when there is
none.  A buffer that ends is read as NUL; no call of `net_process` reaches
that case (`strncmp_reads_in_bounds`). -/
def strncmp : List Nat → List Nat → Nat → Int
  | _, _, 0 => 0
  | a :: s1, b :: s2, n + 1 =>
      if a ≠ b then (a : Int) - (b : Int)
      else if a = 0 then 0
      else strncmp s1 s2 n
  | [], b :: _, _ + 1 => - (b : Int)
  | a :: _, [], _ + 1 => (a : Int)
  | [], [], _ + 1 => 0

/-! ## The compressor (external collaborator) -/

/-- The tuple returned by `decompress_relay_block`: bytes on the wire, the
reconstructed block, the error (`std::get<2>`, null when there is none) and
the block hash; `consumed` is the number of bytes the decompressor took from
the connection through `do_read`. -/
structure DecompressResult where
  wire_bytes : Nat
  block : List Nat
  error : Option String
  fullhash : List Nat
  consumed : Nat

/-- Interface of `RelayNodeCompressor` as `client.cpp` calls it; `σ` is the
compressor's internal state.  A null `shared_ptr` / `const char*` is `none`. -/
structure RelayNodeCompressor (σ : Type) where
  reset : σ → σ
  decompress_relay_block : σ → List Nat → Nat → Bool → DecompressResult × σ
  maybe_recv_tx_of_size : σ → Nat → Bool → Bool × σ
  recv_tx : σ → List Nat → σ
  tx_to_msg : σ → List Nat → Bool → Option (List Nat) × σ
  get_relay_transaction : σ → List Nat → Option (List Nat) × σ
  maybe_compress_block : σ → List Nat → List Nat → Bool → (List Nat × Option String) × σ

/-! ## The relay client -/

/-- One operation performed on a collaborator of `RelayNetworkClient`. -/
inductive Event where
  | send (bytes : List Nat)
  | compressor_reset
  | decompress_relay_block (message_size : Nat) (flag : Bool)
  | maybe_recv_tx_of_size (size : Nat) (debug_print : Bool)
  | recv_tx (tx : List Nat)
  | tx_to_msg (tx : List Nat) (flag : Bool)
  | get_relay_transaction (tx : List Nat)
  | maybe_compress_block (hash : List Nat) (block : List Nat) (flag : Bool)
  | provide_block (block : List Nat)
  | provide_transaction (tx : List Nat)
  deriving DecidableEq, Repr

/-- State of a `RelayNetworkClient` and of its connection: the `connected`
flag, the compressor, the bytes that have not been read yet, the operations
performed so far (oldest first) and the format strings printed so far. -/
structure RelayNetworkClient (σ : Type) where
  connected : Bool
  compressor : σ
  inbound : List Nat
  trace : List Event
  stdout : List String

variable {σ : Type}

/-- State right after the constructor: `connected(false)`. -/
def RelayNetworkClient.construct (comp : σ) (inbound : List Nat) : RelayNetworkClient σ :=
  { connected := false, compressor := comp, inbound := inbound, trace := [], stdout := [] }

/-- Method `on_disconnect`. -/
def on_disconnect (s : RelayNetworkClient σ) : RelayNetworkClient σ :=
  { s with connected := false }

/-- Connection primitive `read_all(buf, n)`: the bytes obtained (fewer than
`n` when the stream ends first) and the state after the read. -/
def read_all (s : RelayNetworkClient σ) (n : Nat) : List Nat × RelayNetworkClient σ :=
  (s.inbound.take n, { s with inbound := s.inbound.drop n })

/-- Connection primitive `maybe_do_send_bytes(buf, len)`. -/
def maybe_do_send_bytes (s : RelayNetworkClient σ) (bytes : List Nat) : RelayNetworkClient σ :=
  { s with trace := s.trace ++ [Event.send bytes] }

/-- A `printf` call, recorded by its format string. -/
def printf (s : RelayNetworkClient σ) (fmt : String) : RelayNetworkClient σ :=
  { s with stdout := s.stdout ++ [fmt] }

/-- The operations of a trace that put bytes on the connection, concatenated. -/
def bytes_sent : List Event → List Nat
  | [] => []
  | Event.send b :: es => b ++ bytes_sent es
  | _ :: es => bytes_sent es

/-- The type dispatch of the read loop (`client.cpp`, the `if` chain on
`header.type`): the state after the branch and the reason handed to
`disconnect`, `none` when the loop goes on to the next header. -/
def dispatch (c : RelayConsts) (K : RelayNodeCompressor σ) (s : RelayNetworkClient σ)
    (type message_size : Nat) : RelayNetworkClient σ × Option String :=
  if type = c.VERSION_TYPE then
    let r := read_all s message_size
    if r.1.length < message_size then (r.2, some "failed to read version message")
    else if strncmp (c_str c.VERSION_STRING) r.1 (min (sizeof_VERSION_STRING c) message_size) ≠ 0 then
      (r.2, some "unknown version string")
    else (printf r.2 "Connected to relay node with protocol version %s\n", none)
  else if type = c.SPONSOR_TYPE then
    let r := read_all s message_size
    if r.1.length < message_size then (r.2, some "failed to read sponsor string")
    else (printf r.2 "This node sponsored by: %s\n", none)
  else if type = c.MAX_VERSION_TYPE then
    let r := read_all s message_size
    if r.1.length < message_size then (r.2, some "failed to read max_version string")
    else if strncmp (c_str c.VERSION_STRING) r.1 (min (sizeof_VERSION_STRING c) message_size) ≠ 0 then
      (printf r.2 "Relay network is using a later version (PLEASE UPGRADE)\n", none)
    else (r.2, some "got MAX_VERSION of same version as us")
  else if type = c.BLOCK_TYPE then
    let res := K.decompress_relay_block s.compressor s.inbound message_size false
    let s1 : RelayNetworkClient σ :=
      { s with compressor := res.2, inbound := s.inbound.drop res.1.consumed,
               trace := s.trace ++ [Event.decompress_relay_block message_size false] }
    match res.1.error with
    | some e => (s1, some e)
    | none =>
      let s2 : RelayNetworkClient σ := { s1 with trace := s1.trace ++ [Event.provide_block res.1.block] }
      let s3 := printf s2 "[%d-%02d-%02d %02d:%02d:%02d+00] "
      let s4 : RelayNetworkClient σ :=
        { s3 with stdout := s3.stdout ++ List.replicate res.1.fullhash.length "%02x" }
      (printf s4 " recv\x27d, size %lu with %u bytes on the wire\n", none)
  else if type = c.END_BLOCK_TYPE then (s, none)
  else if type = c.TRANSACTION_TYPE then
    let ok := K.maybe_recv_tx_of_size s.compressor message_size true
    let s1 : RelayNetworkClient σ :=
      { s with compressor := ok.2, trace := s.trace ++ [Event.maybe_recv_tx_of_size message_size true] }
    if !ok.1 then (s1, some "got freely relayed transaction too large")
    else
      let r := read_all s1 message_size
      if r.1.length < message_size then (r.2, some "failed to read loose transaction data")
      else
        let s2 := printf r.2 "Received transaction of size %u from relay server\n"
        let s3 : RelayNetworkClient σ :=
          { s2 with compressor := K.recv_tx s2.compressor r.1, trace := s2.trace ++ [Event.recv_tx r.1] }
        ({ s3 with trace := s3.trace ++ [Event.provide_transaction r.1] }, none)
  else (s, some "got unknown message type")

/-- One pass through the body of `while (true)` in `net_process`: read the
header, check magic and size, dispatch on the type. -/
def net_process_iter (c : RelayConsts) (K : RelayNodeCompressor σ) (s : RelayNetworkClient σ) :
    RelayNetworkClient σ × Option String :=
  let r := read_all s (4 * 3)
  if r.1.length ≠ 4 * 3 then (r.2, some "failed to read message header")
  else
    let header := parse_header r.1
    if header.magic ≠ c.RELAY_MAGIC_BYTES then (r.2, some "invalid magic bytes")
    else
      let message_size := header.length
      if message_size > 1000000 then (r.2, some "got message too large")
      else dispatch c K r.2 header.type message_size

/-- The part of `net_process` before the loop: reset the compressor, send the
version header and the version string, set `connected`. -/
def net_process_start (c : RelayConsts) (K : RelayNodeCompressor σ) (s : RelayNetworkClient σ) :
    RelayNetworkClient σ :=
  let s0 : RelayNetworkClient σ :=
    { s with compressor := K.reset s.compressor, trace := s.trace ++ [Event.compressor_reset] }
  let version_header : relay_msg_header :=
    { magic := c.RELAY_MAGIC_BYTES, type := c.VERSION_TYPE, length := strlen_VERSION_STRING c }
  let s1 := maybe_do_send_bytes s0 version_header.bytes
  let s2 := maybe_do_send_bytes s1 c.VERSION_STRING
  { s2 with connected := true }

/-- The loop `while (true)` of `net_process`, run for at most `fuel` passes:
the final state and the reason handed to `disconnect` (`none` when the passes
are used up before the loop returns). -/
def net_process_loop (c : RelayConsts) (K : RelayNodeCompressor σ) :
    Nat → RelayNetworkClient σ → RelayNetworkClient σ × Option String
  | 0, s => (s, none)
  | fuel + 1, s =>
      match net_process_iter c K s with
      | (s1, some reason) => (s1, some reason)
      | (s1, none) => net_process_loop c K fuel s1

/-- Method `net_process`.  Every pass that does not return consumes the twelve
header bytes, so `inbound.length + 1` passes are enough
(`net_process_returns`). -/
def net_process (c : RelayConsts) (K : RelayNodeCompressor σ) (s : RelayNetworkClient σ) :
    RelayNetworkClient σ × Option String :=
  net_process_loop c K (s.inbound.length + 1) (net_process_start c K s)

/-- Method `receive_transaction(tx, send_oob)`. -/
def receive_transaction (K : RelayNodeCompressor σ) (s : RelayNetworkClient σ)
    (tx : List Nat) (send_oob : Bool) : RelayNetworkClient σ :=
  if !s.connected then s
  else
    let r := if send_oob then K.tx_to_msg s.compressor tx true
             else K.get_relay_transaction s.compressor tx
    let s1 : RelayNetworkClient σ :=
      { s with compressor := r.2,
               trace := s.trace ++ [if send_oob then Event.tx_to_msg tx true
                                    else Event.get_relay_transaction tx] }
    match r.1 with
    | none => s1
    | some msg =>
      printf (maybe_do_send_bytes s1 msg) "Sent transaction of size %lu%s to relay server\n"

/-- Method `receive_block(block)`; `getblockhash` is the hash function of
`utils.h`, applied to the block from the offset `sizeof(struct bitcoin_msg_header)`. -/
def receive_block (c : RelayConsts) (K : RelayNodeCompressor σ)
    (getblockhash : List Nat → Nat → List Nat) (s : RelayNetworkClient σ)
    (block : List Nat) : RelayNetworkClient σ :=
  if !s.connected then s
  else
    let fullhash := getblockhash block c.sizeof_bitcoin_msg_header
    let tuple := K.maybe_compress_block s.compressor fullhash block false
    let s1 : RelayNetworkClient σ :=
      { s with compressor := tuple.2,
               trace := s.trace ++ [Event.maybe_compress_block fullhash block false] }
    match tuple.1.2 with
    | some _ => printf s1 "Failed to process block from bitcoind (%s)\n"
    | none =>
      let compressed_block := tuple.1.1
      let s2 := maybe_do_send_bytes s1 compressed_block
      let header : relay_msg_header :=
        { magic := c.RELAY_MAGIC_BYTES, type := c.END_BLOCK_TYPE, length := 0 }
      let s3 := maybe_do_send_bytes s2 header.bytes
      printf s3 "HASH_FORMAT sent, size %lu with %lu bytes on the wire\n"

/-! ## The callbacks of `main` -/

/-- A method call made by one of the four lambdas of `main`. -/
inductive Call where
  | relay_receive_block (bytes : List Nat)
  | relay_receive_transaction (bytes : List Nat) (send_oob : Bool)
  | p2p_receive_block (bytes : List Nat)
  | p2p_receive_transaction (bytes : List Nat)
  deriving DecidableEq, Repr

/-- The two clients of `main`: the relay client, and the method calls made by
the lambdas so far, oldest first.  The P2P client (`P2PRelayer`) is external:
a call of one of its methods is only recorded. -/
structure Bridge (σ : Type) where
  relayClient : RelayNetworkClient σ
  calls : List Call

/-- Call `relayClient->receive_block(bytes)`. -/
def Bridge.relay_receive_block (c : RelayConsts) (K : RelayNodeCompressor σ)
    (getblockhash : List Nat → Nat → List Nat) (w : Bridge σ) (bytes : List Nat) : Bridge σ :=
  { relayClient := receive_block c K getblockhash w.relayClient bytes,
    calls := w.calls ++ [Call.relay_receive_block bytes] }

/-- Call `relayClient->receive_transaction(bytes, send_oob)`. -/
def Bridge.relay_receive_transaction (K : RelayNodeCompressor σ) (w : Bridge σ)
    (bytes : List Nat) (send_oob : Bool) : Bridge σ :=
  { relayClient := receive_transaction K w.relayClient bytes send_oob,
    calls := w.calls ++ [Call.relay_receive_transaction bytes send_oob] }

/-- Call `p2p.receive_block(bytes)`. -/
def Bridge.p2p_receive_block (w : Bridge σ) (bytes : List Nat) : Bridge σ :=
  { w with calls := w.calls ++ [Call.p2p_receive_block bytes] }

/-- Call `p2p.receive_transaction(bytes)`. -/
def Bridge.p2p_receive_transaction (w : Bridge σ) (bytes : List Nat) : Bridge σ :=
  { w with calls := w.calls ++ [Call.p2p_receive_transaction bytes] }

/-- First lambda given to `P2PClient`: a block delivered by the P2P side. -/
def p2p_provide_block (c : RelayConsts) (K : RelayNodeCompressor σ)
    (getblockhash : List Nat → Nat → List Nat) (w : Bridge σ) (bytes : List Nat) : Bridge σ :=
  w.relay_receive_block c K getblockhash bytes

/-- Second lambda given to `P2PClient`: a transaction delivered by the P2P side. -/
def p2p_provide_transaction (K : RelayNodeCompressor σ) (w : Bridge σ) (bytes : List Nat) :
    Bridge σ :=
  w.relay_receive_transaction K bytes true

/-- First lambda given to `RelayNetworkClient`: a block delivered by the relay side. -/
def relay_provide_block (w : Bridge σ) (bytes : List Nat) : Bridge σ :=
  w.p2p_receive_block bytes

/-- Second lambda given to `RelayNetworkClient`: a transaction delivered by
the relay side. -/
def relay_provide_transaction (K : RelayNodeCompressor σ) (w : Bridge σ) (bytes : List Nat) :
    Bridge σ :=
  (w.p2p_receive_transaction bytes).relay_receive_transaction K bytes false

/-! ## Server selection (`main`) -/

/-- Macro `HOSTNAMES_TO_TEST`. -/
def HOSTNAMES_TO_TEST : Nat := 20

/-- Macro `CONNECT_TESTS`. -/
def CONNECT_TESTS : Nat := 20

/-- Value of `std::chrono::milliseconds::max()`, the count of a 64-bit signed
representation. -/
def milliseconds_max : Int := 2 ^ 63 - 1

/-- Conversion `%02d` of `printf`: decimal, padded with a zero to two
characters. -/
def fmt_02d (n : Int) : String :=
  let digits := toString n
  if digits.length < 2 then "0" ++ digits else digits

/-- Result of `sprintf(host, relay, n)` with
`relay = "public.%02d.relay.mattcorallo.com"`. -/
def sprintf_relay (n : Int) : String :=
  "public." ++ fmt_02d n ++ ".relay.mattcorallo.com"

/-- Something `main` does during server selection that is visible from
outside. -/
inductive MainEvent where
  | probe_round
  | printf (fmt : String)
  | sleep_for_seconds (n : Nat)
  deriving DecidableEq, Repr

/-- The local variables of the selection loop of `main` and what it has done
so far. -/
structure Selection where
  min : Int
  min_duration : Int
  host : String
  events : List MainEvent
  deriving DecidableEq, Repr

/-- Body of `for (int i = 0; i < HOSTNAMES_TO_TEST; i++)` over
`connect_durations`. -/
def selection_body (connect_durations : Nat → Int) (st : Selection) (i : Nat) : Selection :=
  let st1 : Selection :=
    if connect_durations i ≠ milliseconds_max then
      { st with host := sprintf_relay i,
                events := st.events ++
                  [MainEvent.printf "Server %d (%s) took %lld ms to respond %d times.\n"] }
    else st
  if connect_durations i < st1.min_duration then
    { st1 with min_duration := connect_durations i, min := i }
  else st1

/-- The statements from `int min = -1;` to the end of the `for` loop. -/
def selection_scan (connect_durations : Nat → Int) (st : Selection) : Selection :=
  (List.range HOSTNAMES_TO_TEST).foldl (selection_body connect_durations)
    { st with min := -1, min_duration := milliseconds_max }

/-- One pass through `while (true)` of `main`: the probes have written
`connect_durations`; scan, sleep, then either `continue` (`false`) or format
the host and `break` (`true`). -/
def selection_round (connect_durations : Nat → Int) (st : Selection) : Selection × Bool :=
  let st0 : Selection := { st with events := st.events ++ [MainEvent.probe_round] }
  let st1 := selection_scan connect_durations st0
  let st2 : Selection := { st1 with events := st1.events ++ [MainEvent.sleep_for_seconds 10] }
  if st2.min = -1 then
    ({ st2 with events := st2.events ++ [MainEvent.printf "No servers responded\n"] }, false)
  else
    ({ st2 with host := sprintf_relay st2.min }, true)

/-- The loop `while (true)` of `main` for `argc == 3`, run for at most `fuel`
rounds; `probe r` is what the probes of round `r` write into
`connect_durations`.  The result is `none` when no round has left the loop. -/
def selection_loop (probe : Nat → Nat → Int) : Nat → Nat → Selection → Option Selection
  | 0, _, _ => none
  | fuel + 1, round, st =>
      match selection_round (probe round) st with
      | (st1, true) => some st1
      | (st1, false) => selection_loop probe fuel (round + 1) st1

/-- The statements of `net_process` that precede `connected = true`: reset
the compressor, send the version header, send the version string. -/
def net_process_handshake (c : RelayConsts) (K : RelayNodeCompressor σ)
    (s : RelayNetworkClient σ) : RelayNetworkClient σ :=
  let s0 : RelayNetworkClient σ :=
    { s with compressor := K.reset s.compressor, trace := s.trace ++ [Event.compressor_reset] }
  let version_header : relay_msg_header :=
    { magic := c.RELAY_MAGIC_BYTES, type := c.VERSION_TYPE, length := strlen_VERSION_STRING c }
  maybe_do_send_bytes (maybe_do_send_bytes s0 version_header.bytes) c.VERSION_STRING

/-- State of `main` right after the statement
`std::this_thread::sleep_for(std::chrono::seconds(10))` of a round. -/
def selection_after_sleep (connect_durations : Nat → Int) (st : Selection) : Selection :=
  let st1 := selection_scan connect_durations
    { st with events := st.events ++ [MainEvent.probe_round] }
  { st1 with events := st1.events ++ [MainEvent.sleep_for_seconds 10] }

/-! ## The host buffer of `main` -/

/-- The string `relay` of `main`. -/
def relay : String := "public.%02d.relay.mattcorallo.com"

/-- Declared size of `char host[std::max(argc == 3 ? 0 : strlen(argv[3]), strlen(relay))]`;
`argv3` is the text of `argv[3]`, without its terminator. -/
def host_size (argc : Nat) (argv3 : List Nat) : Nat :=
  max (if argc = 3 then 0 else argv3.length) relay.length

/-- C library `memcpy(dest, src, n)` into a buffer whose declared size is
`dest.length`: the buffer after the copy, `none` when the `n` bytes do not fit
and the copy writes past the end of `dest`. -/
def memcpy (dest src : List Nat) (n : Nat) : Option (List Nat) :=
  if n ≤ dest.length then some (src.take n ++ dest.drop n) else none

/-- The `else` branch of `main` (`argc == 4`):
`memcpy(host, argv[3], strlen(argv[3]) + 1)`.  The bytes that `host` holds
before the copy do not matter and are taken as zero. -/
def main_copy_host (argv3 : List Nat) : Option (List Nat) :=
  memcpy (List.replicate (host_size 4 argv3) 0) (c_str argv3) (argv3.length + 1)

/-! ## Vocabulary of the statements -/

/-- The header at the front of the bytes still to arrive. -/
def next_header (s : RelayNetworkClient σ) : relay_msg_header :=
  parse_header (s.inbound.take (4 * 3))

/-- The payload that follows that header: as many bytes as its length field
declares (fewer when the stream ends first). -/
def next_payload (s : RelayNetworkClient σ) : List Nat :=
  (s.inbound.drop (4 * 3)).take (next_header s).length

/-- The state in which the header, and nothing else, has been consumed. -/
def after_header (s : RelayNetworkClient σ) : RelayNetworkClient σ :=
  { s with inbound := s.inbound.drop (4 * 3) }

/-- The state in which the header and its whole payload, and nothing else,
have been consumed. -/
def after_message (s : RelayNetworkClient σ) : RelayNetworkClient σ :=
  { s with inbound := s.inbound.drop (4 * 3 + (next_header s).length) }

/-- The payload agrees byte for byte with the memory of `VERSION_STRING` (its
text and the terminating NUL) on the first
`min(sizeof(VERSION_STRING), payload length)` bytes. -/
def agrees_with_version (c : RelayConsts) (payload : List Nat) : Prop :=
  payload.take (min (sizeof_VERSION_STRING c) payload.length) =
    (c_str c.VERSION_STRING).take (min (sizeof_VERSION_STRING c) payload.length)

instance (c : RelayConsts) (payload : List Nat) : Decidable (agrees_with_version c payload) := by
  unfold agrees_with_version
  infer_instance

/-- The payload agrees byte for byte with the text of `VERSION_STRING` on the
first `min(strlen(VERSION_STRING), payload length)` bytes. -/
def agrees_up_to_shorter (c : RelayConsts) (payload : List Nat) : Prop :=
  payload.take (min (strlen_VERSION_STRING c) payload.length) =
    c.VERSION_STRING.take (min (strlen_VERSION_STRING c) payload.length)

instance (c : RelayConsts) (payload : List Nat) : Decidable (agrees_up_to_shorter c payload) := by
  unfold agrees_up_to_shorter
  infer_instance

/-- The lines the scan prints for the first `k` candidates: one for every
candidate whose duration is finite, in index order. -/
def server_prints (connect_durations : Nat → Int) (k : Nat) : List MainEvent :=
  ((List.range k).filter (fun i => decide (connect_durations i ≠ milliseconds_max))).map
    (fun _ => MainEvent.printf "Server %d (%s) took %lld ms to respond %d times.\n")

/-- The six type tags of `relayprocess.h` are pairwise different. -/
def distinct_tags (c : RelayConsts) : Prop :=
  [c.VERSION_TYPE, c.SPONSOR_TYPE, c.MAX_VERSION_TYPE, c.BLOCK_TYPE, c.END_BLOCK_TYPE,
    c.TRANSACTION_TYPE].Nodup

instance (c : RelayConsts) : Decidable (distinct_tags c) := by
  unfold distinct_tags
  infer_instance

/-! ## Sample instances -/

/-- Sample values for the constants of `relayprocess.h`; the version string is
the text `relay one`. -/
def sampleConsts : RelayConsts :=
  { RELAY_MAGIC_BYTES := 0xF2BEEF42
    VERSION_TYPE := 0
    BLOCK_TYPE := 1
    TRANSACTION_TYPE := 2
    END_BLOCK_TYPE := 3
    MAX_VERSION_TYPE := 4
    SPONSOR_TYPE := 6
    VERSION_STRING := [114, 101, 108, 97, 121, 32, 111, 110, 101]
    sizeof_bitcoin_msg_header := 24 }

/-- A small compressor to run the client on concrete inputs.  Its state is the
list of transactions it has seen; a block travels uncompressed, a transaction
of more than 100 bytes is refused. -/
def sampleCompressor : RelayNodeCompressor (List (List Nat)) :=
  { reset := fun _ => []
    decompress_relay_block := fun st inbound message_size _ =>
      if inbound.length < message_size then
        ({ wire_bytes := inbound.length, block := [], error := some "failed to read block data",
           fullhash := [], consumed := inbound.length }, st)
      else
        ({ wire_bytes := message_size, block := inbound.take message_size, error := none,
           fullhash := List.replicate 32 0, consumed := message_size }, st)
    maybe_recv_tx_of_size := fun st size _ => (decide (size ≤ 100), st)
    recv_tx := fun st tx => tx :: st
    tx_to_msg := fun st tx _ => (some (be32_bytes tx.length ++ tx), tx :: st)
    get_relay_transaction := fun st tx =>
      if tx ∈ st then (none, st) else (some (be32_bytes tx.length ++ tx), tx :: st)
    maybe_compress_block := fun st _ block _ =>
      if block.length < 24 then (([], some "block too small"), st)
      else ((be32_bytes block.length ++ block, none), st) }

/-- A stand-in for `getblockhash`: thirty-two bytes taken from the block after
the offset. -/
def sampleHash (block : List Nat) (offset : Nat) : List Nat :=
  ((block.drop offset) ++ List.replicate 32 0).take 32

/-- The twelve bytes of a header with the sample magic. -/
def sampleHeader (type length : Nat) : List Nat :=
  relay_msg_header.bytes { magic := sampleConsts.RELAY_MAGIC_BYTES, type := type, length := length }

/-- A connected sample client with the given bytes waiting on the connection. -/
def sampleClient (inbound : List Nat) : RelayNetworkClient (List (List Nat)) :=
  { connected := true, compressor := [], inbound := inbound, trace := [], stdout := [] }

/-- Sample stream: a header with a wrong magic, type `TRANSACTION` and length
5, followed by five bytes. -/
def badMagicStream : List Nat :=
  relay_msg_header.bytes { magic := 0xDEADBEEF, type := 2, length := 5 } ++ [1, 2, 3, 4, 5]

/-- Sample stream: an `END_BLOCK` header that declares 1,000,001 bytes. -/
def oversizeStream : List Nat := sampleHeader 3 1000001

/-- Sample stream: an `END_BLOCK` header that declares 1,000,000 bytes. -/
def maxSizeStream : List Nat := sampleHeader 3 1000000

/-- Sample stream: a header with the unused type tag 5 and length 2, followed
by two bytes. -/
def unknownTypeStream : List Nat := sampleHeader 5 2 ++ [7, 7]

/-- Sample stream: a `VERSION` message whose payload is the sample version
string followed by the letter `x`. -/
def versionExtraStream : List Nat :=
  sampleHeader 0 10 ++ (sampleConsts.VERSION_STRING ++ [120])

/-- Sample stream: a `VERSION` message that carries the sample version string,
followed by an `END_BLOCK` header. -/
def versionStream : List Nat :=
  sampleHeader 0 9 ++ sampleConsts.VERSION_STRING ++ sampleHeader 3 0

/-- Sample stream: a `MAX_VERSION` message with an empty payload. -/
def maxVersionEmptyStream : List Nat := sampleHeader 4 0

/-- Sample stream: a `MAX_VERSION` message that carries the text `relay two`. -/
def maxVersionOtherStream : List Nat :=
  sampleHeader 4 9 ++ [114, 101, 108, 97, 121, 32, 116, 119, 111]

/-- Sample probe result: candidate 1 took 50 ms, candidate 3 took 10 ms, every
other candidate is unreachable. -/
def sampleDurations (i : Nat) : Int :=
  [milliseconds_max, 50, milliseconds_max, 10].getD i milliseconds_max

/-- The local variables of `main` when the selection loop is entered, with an
empty `host` buffer. -/
def sampleSelection : Selection :=
  { min := -1, min_duration := milliseconds_max, host := "", events := [] }

/-- Sample stream: a `TRANSACTION` message of three bytes, followed by an
`END_BLOCK` header. -/
def transactionStream : List Nat := sampleHeader 2 3 ++ [1, 2, 3] ++ sampleHeader 3 0

/-- Sample stream: a `TRANSACTION` header that declares 101 bytes, which the
sample compressor refuses, followed by two bytes. -/
def transactionRefusedStream : List Nat := sampleHeader 2 101 ++ [1, 2]

/-- A sample block of 30 bytes, which the sample compressor accepts. -/
def sampleBlock : List Nat := List.replicate 30 7

/-- A sample block of 3 bytes, which the sample compressor refuses. -/
def sampleShortBlock : List Nat := [1, 2, 3]

/-- A sample bridge whose relay client is connected. -/
def sampleBridge : Bridge (List (List Nat)) :=
  { relayClient := sampleClient [], calls := [] }

/-- Sample stream: a `BLOCK` message of four bytes, followed by an `END_BLOCK`
header. -/
def blockStream : List Nat := sampleHeader 1 4 ++ [9, 9, 9, 9] ++ sampleHeader 3 0

/-- Sample stream: a `BLOCK` header that declares four bytes, followed by one
byte only, on which the sample decompressor reports an error. -/
def blockErrorStream : List Nat := sampleHeader 1 4 ++ [9]

/-- Sample stream: an `END_BLOCK` header that declares five bytes, followed by
an `END_BLOCK` header of length zero. -/
def endBlockStream : List Nat := sampleHeader 3 5 ++ sampleHeader 3 0

/-- Sample stream: three bytes, then the stream ends. -/
def shortHeaderStream : List Nat := [0xF2, 0xBE, 0xEF]

/-- Sample stream: a `VERSION` header that declares nine bytes, followed by
two bytes only. -/
def shortVersionStream : List Nat := sampleHeader 0 9 ++ [114, 101]

/-- Sample stream: a `TRANSACTION` header that declares three bytes, followed
by one byte only. -/
def shortTransactionStream : List Nat := sampleHeader 2 3 ++ [1]

/-- Sample probe result: every candidate is unreachable. -/
def unreachableDurations (_ : Nat) : Int := milliseconds_max

/-- A host name of 33 characters. -/
def longHostName : List Nat := "relay-node-001.eu.mattcorallo.com".toList.map Char.toNat

/-- A host name of 32 characters. -/
def fittingHostName : List Nat := "relay-node-01.eu.mattcorallo.com".toList.map Char.toNat

/-- A connected sample client whose compressor has already seen the
transaction `[1, 2, 3]`. -/
def knownTxClient : RelayNetworkClient (List (List Nat)) :=
  { connected := true, compressor := [[1, 2, 3]], inbound := [], trace := [], stdout := [] }

/-- Sample stream: a `MAX_VERSION` message that carries the sample version
string. -/
def maxVersionSameStream : List Nat := sampleHeader 4 9 ++ sampleConsts.VERSION_STRING

/-! ## The read loop: header checks -/

theorem net_process_iter_of_header (c : RelayConsts) (K : RelayNodeCompressor σ)
    (s : RelayNetworkClient σ) (hlen : 4 * 3 ≤ s.inbound.length) :
    net_process_iter c K s =
      if (next_header s).magic ≠ c.RELAY_MAGIC_BYTES then
        (after_header s, some "invalid magic bytes")
      else if (next_header s).length > 1000000 then
        (after_header s, some "got message too large")
      else dispatch c K (after_header s) (next_header s).type (next_header s).length := by
  have h12 : (s.inbound.take (4 * 3)).length = 4 * 3 := by
    rw [List.length_take]; omega
  simp only [net_process_iter, read_all, next_header, after_header, h12, ne_eq,
    not_true_eq_false, if_false]

theorem net_process_loop_of_disconnect (c : RelayConsts) (K : RelayNodeCompressor σ)
    (s s1 : RelayNetworkClient σ) (reason : String)
    (h : net_process_iter c K s = (s1, some reason)) (fuel : Nat) :
    net_process_loop c K (fuel + 1) s = (s1, some reason) := by
  simp only [net_process_loop, h]

theorem net_process_loop_of_continue (c : RelayConsts) (K : RelayNodeCompressor σ)
    (s s1 : RelayNetworkClient σ)
    (h : net_process_iter c K s = (s1, none)) (fuel : Nat) :
    net_process_loop c K (fuel + 1) s = net_process_loop c K fuel s1 := by
  simp only [net_process_loop, h]

/-- C1: a header whose magic differs from `RELAY_MAGIC_BYTES` makes the read
loop disconnect ("invalid magic bytes"), whatever its type and length fields
hold; only the twelve header bytes have been consumed, and the compressor, the
trace of compressor / provide calls and `connected` are as before. -/
theorem C1_invalid_magic_disconnects (c : RelayConsts) (K : RelayNodeCompressor σ)
    (s : RelayNetworkClient σ) (hlen : 4 * 3 ≤ s.inbound.length)
    (hmagic : (next_header s).magic ≠ c.RELAY_MAGIC_BYTES) :
    net_process_iter c K s = (after_header s, some "invalid magic bytes") ∧
    (after_header s).inbound = s.inbound.drop 12 ∧
    (after_header s).compressor = s.compressor ∧
    (after_header s).trace = s.trace ∧
    (after_header s).connected = s.connected ∧
    ∀ fuel, net_process_loop c K (fuel + 1) s = (after_header s, some "invalid magic bytes") := by
  have h : net_process_iter c K s = (after_header s, some "invalid magic bytes") := by
    rw [net_process_iter_of_header c K s hlen, if_pos hmagic]
  exact ⟨h, rfl, rfl, rfl, rfl, net_process_loop_of_disconnect c K s _ _ h⟩

/-- Witness of C1 on `badMagicStream`. -/
theorem C1_invalid_magic_disconnects_witness :
    (next_header (sampleClient badMagicStream)).magic ≠ sampleConsts.RELAY_MAGIC_BYTES ∧
    net_process_iter sampleConsts sampleCompressor (sampleClient badMagicStream) =
      (after_header (sampleClient badMagicStream), some "invalid magic bytes") :=
  ⟨by decide,
   (C1_invalid_magic_disconnects sampleConsts sampleCompressor (sampleClient badMagicStream)
      (by decide) (by decide)).1⟩

/-- C2: with a valid magic, a length field above 1,000,000 makes the read loop
disconnect ("got message too large") for every type tag, with only the twelve
header bytes consumed and nothing else changed; a length of exactly 1,000,000
passes the check, and the pass goes on to the type dispatch. -/
theorem C2_oversize_disconnects (c : RelayConsts) (K : RelayNodeCompressor σ)
    (s : RelayNetworkClient σ) (hlen : 4 * 3 ≤ s.inbound.length)
    (hmagic : (next_header s).magic = c.RELAY_MAGIC_BYTES) :
    ((next_header s).length > 1000000 →
      net_process_iter c K s = (after_header s, some "got message too large") ∧
      (after_header s).inbound = s.inbound.drop 12 ∧
      (after_header s).compressor = s.compressor ∧
      (after_header s).trace = s.trace ∧
      ∀ fuel, net_process_loop c K (fuel + 1) s =
        (after_header s, some "got message too large")) ∧
    ((next_header s).length = 1000000 →
      net_process_iter c K s =
        dispatch c K (after_header s) (next_header s).type 1000000) := by
  constructor
  · intro hbig
    have h : net_process_iter c K s = (after_header s, some "got message too large") := by
      rw [net_process_iter_of_header c K s hlen, if_neg (by simpa using hmagic), if_pos hbig]
    exact ⟨h, rfl, rfl, rfl, net_process_loop_of_disconnect c K s _ _ h⟩
  · intro heq
    rw [net_process_iter_of_header c K s hlen, if_neg (by simpa using hmagic),
      if_neg (by omega), heq]

/-- Witness of C2 on `oversizeStream` (1,000,001 is refused) and on
`maxSizeStream` (1,000,000 reaches the dispatch, where `END_BLOCK` goes on). -/
theorem C2_oversize_disconnects_witness :
    (net_process_iter sampleConsts sampleCompressor (sampleClient oversizeStream) =
      (after_header (sampleClient oversizeStream), some "got message too large")) ∧
    (net_process_iter sampleConsts sampleCompressor (sampleClient maxSizeStream) =
      dispatch sampleConsts sampleCompressor (after_header (sampleClient maxSizeStream))
        (next_header (sampleClient maxSizeStream)).type 1000000) ∧
    (net_process_iter sampleConsts sampleCompressor (sampleClient maxSizeStream)).2 = none :=
  ⟨((C2_oversize_disconnects sampleConsts sampleCompressor (sampleClient oversizeStream)
      (by decide) (by decide)).1 (by decide)).1,
   (C2_oversize_disconnects sampleConsts sampleCompressor (sampleClient maxSizeStream)
      (by decide) (by decide)).2 (by decide),
   by decide⟩

/-- C5: with a valid magic, a type tag that is none of `VERSION`, `SPONSOR`,
`MAX_VERSION`, `BLOCK`, `END_BLOCK`, `TRANSACTION` makes the read loop
disconnect for every value of the length field; only the twelve header bytes
have been consumed, the compressor and the trace of compressor / provide calls
are as before. -/
theorem C5_unknown_type_disconnects (c : RelayConsts) (K : RelayNodeCompressor σ)
    (s : RelayNetworkClient σ) (hlen : 4 * 3 ≤ s.inbound.length)
    (hmagic : (next_header s).magic = c.RELAY_MAGIC_BYTES)
    (h1 : (next_header s).type ≠ c.VERSION_TYPE)
    (h2 : (next_header s).type ≠ c.SPONSOR_TYPE)
    (h3 : (next_header s).type ≠ c.MAX_VERSION_TYPE)
    (h4 : (next_header s).type ≠ c.BLOCK_TYPE)
    (h5 : (next_header s).type ≠ c.END_BLOCK_TYPE)
    (h6 : (next_header s).type ≠ c.TRANSACTION_TYPE) :
    ∃ reason : String,
      reason = (if (next_header s).length > 1000000 then "got message too large"
                else "got unknown message type") ∧
      net_process_iter c K s = (after_header s, some reason) ∧
      (after_header s).inbound = s.inbound.drop 12 ∧
      (after_header s).compressor = s.compressor ∧
      (after_header s).trace = s.trace ∧
      ∀ fuel, net_process_loop c K (fuel + 1) s = (after_header s, some reason) := by
  refine ⟨_, rfl, ?_⟩
  have h : net_process_iter c K s = (after_header s,
      some (if (next_header s).length > 1000000 then "got message too large"
            else "got unknown message type")) := by
    rw [net_process_iter_of_header c K s hlen, if_neg (by simpa using hmagic)]
    by_cases hbig : (next_header s).length > 1000000
    · rw [if_pos hbig, if_pos hbig]
    · rw [if_neg hbig, if_neg hbig]
      simp only [dispatch, if_neg h1, if_neg h2, if_neg h3, if_neg h4, if_neg h5, if_neg h6]
  exact ⟨h, rfl, rfl, rfl, net_process_loop_of_disconnect c K s _ _ h⟩

/-- Witness of C5 on `unknownTypeStream`. -/
theorem C5_unknown_type_disconnects_witness :
    ∃ reason : String,
      reason = (if (next_header (sampleClient unknownTypeStream)).length > 1000000
                then "got message too large" else "got unknown message type") ∧
      net_process_iter sampleConsts sampleCompressor (sampleClient unknownTypeStream) =
        (after_header (sampleClient unknownTypeStream), some reason) ∧
      (after_header (sampleClient unknownTypeStream)).inbound = unknownTypeStream.drop 12 ∧
      (after_header (sampleClient unknownTypeStream)).compressor =
        (sampleClient unknownTypeStream).compressor ∧
      (after_header (sampleClient unknownTypeStream)).trace =
        (sampleClient unknownTypeStream).trace ∧
      ∀ fuel, net_process_loop sampleConsts sampleCompressor (fuel + 1)
          (sampleClient unknownTypeStream) =
        (after_header (sampleClient unknownTypeStream), some reason) :=
  C5_unknown_type_disconnects sampleConsts sampleCompressor (sampleClient unknownTypeStream)
    (by decide) (by decide) (by decide) (by decide) (by decide) (by decide) (by decide)
    (by decide)

/-! ## The read loop: version comparison -/

theorem strncmp_reads_in_bounds (c : RelayConsts) (data : List Nat) :
    min (sizeof_VERSION_STRING c) data.length ≤ (c_str c.VERSION_STRING).length ∧
    min (sizeof_VERSION_STRING c) data.length ≤ data.length := by
  simp only [sizeof_VERSION_STRING, c_str, List.length_append, List.length_singleton]
  omega

theorem strncmp_c_str_eq_zero_iff (V : List Nat) (hV : ∀ b ∈ V, b ≠ 0) :
    ∀ (data : List Nat) (n : Nat), n ≤ V.length + 1 → n ≤ data.length →
      (strncmp (c_str V) data n = 0 ↔ data.take n = (c_str V).take n) := by
  induction V with
  | nil =>
    intro data n hn1 hn2
    match n, data with
    | 0, _ => simp [strncmp]
    | 1, b :: d =>
      simp only [c_str, List.nil_append, strncmp]
      by_cases hb : b = 0
      · subst hb; simp
      · have hb2 : ¬ (0 = b) := fun h => hb h.symm
        simp only [ne_eq, hb2, not_false_eq_true, if_true]
        simp [hb]
    | n + 2, _ => simp at hn1
  | cons a V ih =>
    intro data n hn1 hn2
    have ha : a ≠ 0 := hV a (List.mem_cons_self a V)
    have hV2 : ∀ b ∈ V, b ≠ 0 := fun b hb => hV b (List.mem_cons_of_mem a hb)
    match n, data with
    | 0, _ => simp [strncmp]
    | n + 1, [] => simp at hn2
    | n + 1, b :: d =>
      have hn1b : n ≤ V.length + 1 := by simpa using hn1
      have hn2b : n ≤ d.length := by simpa using hn2
      have key := ih hV2 d n hn1b hn2b
      simp only [c_str] at key
      simp only [c_str, List.cons_append, strncmp, List.take_succ_cons, List.cons.injEq]
      by_cases hab : a = b
      · subst hab
        simp only [ne_eq, not_true_eq_false, if_false, ha, true_and]
        exact key
      · have hba : ¬ (b = a) := fun h => hab h.symm
        have hsub : (a : Int) - (b : Int) ≠ 0 := by
          intro h
          apply hab
          have : (a : Int) = (b : Int) := by omega
          exact_mod_cast this
        simp only [ne_eq, hab, not_false_eq_true, if_true, hsub, hba, false_and]

theorem next_payload_length (s : RelayNetworkClient σ)
    (hfull : 4 * 3 + (next_header s).length ≤ s.inbound.length) :
    (next_payload s).length = (next_header s).length := by
  simp only [next_payload, List.length_take, List.length_drop]
  omega

theorem read_all_payload (s : RelayNetworkClient σ) :
    read_all (after_header s) (next_header s).length = (next_payload s, after_message s) := by
  simp only [read_all, after_header, next_payload, after_message, List.drop_drop]

theorem net_process_iter_of_sized_header (c : RelayConsts) (K : RelayNodeCompressor σ)
    (s : RelayNetworkClient σ)
    (hmagic : (next_header s).magic = c.RELAY_MAGIC_BYTES)
    (hsize : (next_header s).length ≤ 1000000)
    (hfull : 4 * 3 + (next_header s).length ≤ s.inbound.length) :
    net_process_iter c K s =
      dispatch c K (after_header s) (next_header s).type (next_header s).length := by
  rw [net_process_iter_of_header c K s (by omega), if_neg (by simpa using hmagic),
    if_neg (by omega)]

theorem strncmp_version_eq_zero_iff (c : RelayConsts) (hV : ∀ b ∈ c.VERSION_STRING, b ≠ 0)
    (data : List Nat) :
    strncmp (c_str c.VERSION_STRING) data (min (sizeof_VERSION_STRING c) data.length) = 0 ↔
      agrees_with_version c data := by
  unfold agrees_with_version
  exact strncmp_c_str_eq_zero_iff c.VERSION_STRING hV data _
    (by simp only [sizeof_VERSION_STRING]; omega) (by omega)

theorem dispatch_version (c : RelayConsts) (K : RelayNodeCompressor σ)
    (s : RelayNetworkClient σ) (hV : ∀ b ∈ c.VERSION_STRING, b ≠ 0)
    (htype : (next_header s).type = c.VERSION_TYPE)
    (hfull : 4 * 3 + (next_header s).length ≤ s.inbound.length) :
    dispatch c K (after_header s) (next_header s).type (next_header s).length =
      if agrees_with_version c (next_payload s) then
        (printf (after_message s) "Connected to relay node with protocol version %s\n", none)
      else (after_message s, some "unknown version string") := by
  have hl := next_payload_length s hfull
  have hz := strncmp_version_eq_zero_iff c hV (next_payload s)
  rw [hl] at hz
  simp only [dispatch, if_pos htype, read_all_payload, hl, lt_self_iff_false, if_false, ne_eq]
  by_cases hag : agrees_with_version c (next_payload s)
  · rw [if_neg (not_not.mpr (hz.mpr hag)), if_pos hag]
  · rw [if_pos (fun h => hag (hz.mp h)), if_neg hag]

theorem dispatch_max_version (c : RelayConsts) (K : RelayNodeCompressor σ)
    (s : RelayNetworkClient σ) (hV : ∀ b ∈ c.VERSION_STRING, b ≠ 0)
    (htype : (next_header s).type = c.MAX_VERSION_TYPE)
    (hd1 : c.MAX_VERSION_TYPE ≠ c.VERSION_TYPE) (hd2 : c.MAX_VERSION_TYPE ≠ c.SPONSOR_TYPE)
    (hfull : 4 * 3 + (next_header s).length ≤ s.inbound.length) :
    dispatch c K (after_header s) (next_header s).type (next_header s).length =
      if agrees_with_version c (next_payload s) then
        (after_message s, some "got MAX_VERSION of same version as us")
      else
        (printf (after_message s) "Relay network is using a later version (PLEASE UPGRADE)\n",
          none) := by
  have hl := next_payload_length s hfull
  have hz := strncmp_version_eq_zero_iff c hV (next_payload s)
  rw [hl] at hz
  have h1 : ¬ (next_header s).type = c.VERSION_TYPE := by rw [htype]; exact hd1
  have h2 : ¬ (next_header s).type = c.SPONSOR_TYPE := by rw [htype]; exact hd2
  simp only [dispatch, if_neg h1, if_neg h2, if_pos htype, read_all_payload, hl,
    lt_self_iff_false, if_false, ne_eq]
  by_cases hag : agrees_with_version c (next_payload s)
  · rw [if_neg (not_not.mpr (hz.mpr hag)), if_pos hag]
  · rw [if_pos (fun h => hag (hz.mp h)), if_neg hag]

theorem agrees_with_version_nil (c : RelayConsts) : agrees_with_version c [] := by
  simp [agrees_with_version]

theorem agrees_with_version_self (c : RelayConsts) : agrees_with_version c c.VERSION_STRING := by
  simp [agrees_with_version, sizeof_VERSION_STRING, c_str, List.take_append_of_le_length]

theorem not_agrees_with_version_extra (c : RelayConsts) (b : Nat) (extra : List Nat)
    (hb : b ≠ 0) : ¬ agrees_with_version c (c.VERSION_STRING ++ b :: extra) := by
  intro h
  unfold agrees_with_version at h
  have hmin : min (sizeof_VERSION_STRING c) (c.VERSION_STRING ++ b :: extra).length =
      c.VERSION_STRING.length + 1 := by
    simp only [sizeof_VERSION_STRING, List.length_append, List.length_cons]; omega
  rw [hmin] at h
  have e1 : (c.VERSION_STRING ++ b :: extra).take (c.VERSION_STRING.length + 1) =
      c.VERSION_STRING ++ [b] := by
    rw [List.take_append_eq_append_take]
    simp
  have e2 : (c_str c.VERSION_STRING).take (c.VERSION_STRING.length + 1) =
      c.VERSION_STRING ++ [0] := by
    simp [c_str, List.take_of_length_le]
  rw [e1, e2] at h
  have := List.append_cancel_left h
  simp at this
  exact hb this

theorem agrees_with_version_of_initial_segment (c : RelayConsts) (payload : List Nat)
    (h : payload <+: c.VERSION_STRING) : agrees_with_version c payload := by
  obtain ⟨t, ht⟩ := h
  have hmin : min (sizeof_VERSION_STRING c) payload.length = payload.length := by
    simp only [sizeof_VERSION_STRING, ← ht, List.length_append]; omega
  unfold agrees_with_version
  rw [hmin, c_str, ← ht, List.append_assoc, List.take_left, List.take_length]

/-- C3 as stated fails on `versionExtraStream`: the payload is the own version
string followed by one more byte, so it agrees with the own version string on
the first `min(strlen, length)` bytes, and the read loop disconnects with
"unknown version string". -/
theorem C3_version_extra_bytes_rejected :
    (next_header (sampleClient versionExtraStream)).magic = sampleConsts.RELAY_MAGIC_BYTES ∧
    (next_header (sampleClient versionExtraStream)).type = sampleConsts.VERSION_TYPE ∧
    (next_header (sampleClient versionExtraStream)).length ≤ 1000000 ∧
    next_payload (sampleClient versionExtraStream) = sampleConsts.VERSION_STRING ++ [120] ∧
    agrees_up_to_shorter sampleConsts (next_payload (sampleClient versionExtraStream)) ∧
    (net_process_iter sampleConsts sampleCompressor (sampleClient versionExtraStream)).2 =
      some "unknown version string" := by
  decide

/-- C3 (amended): for a complete `VERSION` message (valid magic, length at
most 1,000,000, payload fully read) the read loop goes on to the next header
exactly when the payload agrees byte for byte with `VERSION_STRING` followed
by its terminating NUL on the first `min(sizeof(VERSION_STRING), length)`
bytes, where `sizeof` counts the NUL; every other payload disconnects with
"unknown version string".  So a prefix of the own version string (the empty
payload, the string itself) is accepted, and the own version string followed
by a byte other than NUL is refused. -/
theorem C3_version_message (c : RelayConsts) (K : RelayNodeCompressor σ)
    (s : RelayNetworkClient σ) (hV : ∀ b ∈ c.VERSION_STRING, b ≠ 0)
    (hmagic : (next_header s).magic = c.RELAY_MAGIC_BYTES)
    (htype : (next_header s).type = c.VERSION_TYPE)
    (hsize : (next_header s).length ≤ 1000000)
    (hfull : 4 * 3 + (next_header s).length ≤ s.inbound.length) :
    (agrees_with_version c (next_payload s) →
      net_process_iter c K s =
        (printf (after_message s) "Connected to relay node with protocol version %s\n", none) ∧
      ∀ fuel, net_process_loop c K (fuel + 1) s =
        net_process_loop c K fuel
          (printf (after_message s) "Connected to relay node with protocol version %s\n")) ∧
    (¬ agrees_with_version c (next_payload s) →
      net_process_iter c K s = (after_message s, some "unknown version string")) ∧
    (next_payload s <+: c.VERSION_STRING → (net_process_iter c K s).2 = none) ∧
    (∀ b extra, b ≠ 0 → next_payload s = c.VERSION_STRING ++ b :: extra →
      (net_process_iter c K s).2 = some "unknown version string") := by
  have hiter := net_process_iter_of_sized_header c K s hmagic hsize hfull
  rw [dispatch_version c K s hV htype hfull] at hiter
  have hyes : agrees_with_version c (next_payload s) →
      net_process_iter c K s =
        (printf (after_message s) "Connected to relay node with protocol version %s\n",
          none) := by
    intro hag; rw [hiter, if_pos hag]
  have hno : ¬ agrees_with_version c (next_payload s) →
      net_process_iter c K s = (after_message s, some "unknown version string") := by
    intro hag; rw [hiter, if_neg hag]
  refine ⟨fun hag => ⟨hyes hag, net_process_loop_of_continue c K s _ (hyes hag)⟩, hno, ?_, ?_⟩
  · intro hpre
    rw [hyes (agrees_with_version_of_initial_segment c _ hpre)]
  · intro b extra hb hp
    rw [hno (by rw [hp]; exact not_agrees_with_version_extra c b extra hb)]

/-- Witness of C3 (amended) on `versionStream`, whose payload is the own
version string. -/
theorem C3_version_message_witness :
    agrees_with_version sampleConsts (next_payload (sampleClient versionStream)) ∧
    net_process_iter sampleConsts sampleCompressor (sampleClient versionStream) =
      (printf (after_message (sampleClient versionStream))
        "Connected to relay node with protocol version %s\n", none) :=
  ⟨by decide,
   ((C3_version_message sampleConsts sampleCompressor (sampleClient versionStream)
      (by decide) (by decide) (by decide) (by decide) (by decide)).1 (by decide)).1⟩

/-- C4 as stated fails on `maxVersionEmptyStream`: the payload is empty, hence
differs from the own version string, and the read loop disconnects. -/
theorem C4_max_version_empty_disconnects :
    (next_header (sampleClient maxVersionEmptyStream)).magic = sampleConsts.RELAY_MAGIC_BYTES ∧
    (next_header (sampleClient maxVersionEmptyStream)).type = sampleConsts.MAX_VERSION_TYPE ∧
    (next_header (sampleClient maxVersionEmptyStream)).length ≤ 1000000 ∧
    next_payload (sampleClient maxVersionEmptyStream) = [] ∧
    next_payload (sampleClient maxVersionEmptyStream) ≠ sampleConsts.VERSION_STRING ∧
    (net_process_iter sampleConsts sampleCompressor (sampleClient maxVersionEmptyStream)).2 =
      some "got MAX_VERSION of same version as us" := by
  decide

/-- C4 (amended): for a complete `MAX_VERSION` message (valid magic, length at
most 1,000,000, payload fully read) the read loop disconnects exactly when the
payload agrees byte for byte with `VERSION_STRING` followed by its terminating
NUL on the first `min(sizeof(VERSION_STRING), length)` bytes, which is the case
for the own version string and for every prefix of it, the empty payload
included; for every other payload (a different byte, or the own version string
followed by a byte other than NUL) it only warns and goes on to the next
header. -/
theorem C4_max_version_message (c : RelayConsts) (K : RelayNodeCompressor σ)
    (s : RelayNetworkClient σ) (hV : ∀ b ∈ c.VERSION_STRING, b ≠ 0)
    (hd1 : c.MAX_VERSION_TYPE ≠ c.VERSION_TYPE) (hd2 : c.MAX_VERSION_TYPE ≠ c.SPONSOR_TYPE)
    (hmagic : (next_header s).magic = c.RELAY_MAGIC_BYTES)
    (htype : (next_header s).type = c.MAX_VERSION_TYPE)
    (hsize : (next_header s).length ≤ 1000000)
    (hfull : 4 * 3 + (next_header s).length ≤ s.inbound.length) :
    (agrees_with_version c (next_payload s) →
      net_process_iter c K s =
        (after_message s, some "got MAX_VERSION of same version as us")) ∧
    (¬ agrees_with_version c (next_payload s) →
      net_process_iter c K s =
        (printf (after_message s) "Relay network is using a later version (PLEASE UPGRADE)\n",
          none) ∧
      ∀ fuel, net_process_loop c K (fuel + 1) s =
        net_process_loop c K fuel
          (printf (after_message s)
            "Relay network is using a later version (PLEASE UPGRADE)\n")) ∧
    (next_payload s <+: c.VERSION_STRING →
      (net_process_iter c K s).2 = some "got MAX_VERSION of same version as us") ∧
    (∀ b extra, b ≠ 0 → next_payload s = c.VERSION_STRING ++ b :: extra →
      (net_process_iter c K s).2 = none) := by
  have hiter := net_process_iter_of_sized_header c K s hmagic hsize hfull
  rw [dispatch_max_version c K s hV htype hd1 hd2 hfull] at hiter
  have hyes : agrees_with_version c (next_payload s) →
      net_process_iter c K s =
        (after_message s, some "got MAX_VERSION of same version as us") := by
    intro hag; rw [hiter, if_pos hag]
  have hno : ¬ agrees_with_version c (next_payload s) →
      net_process_iter c K s =
        (printf (after_message s) "Relay network is using a later version (PLEASE UPGRADE)\n",
          none) := by
    intro hag; rw [hiter, if_neg hag]
  refine ⟨hyes, fun hag => ⟨hno hag, net_process_loop_of_continue c K s _ (hno hag)⟩, ?_, ?_⟩
  · intro hpre
    rw [hyes (agrees_with_version_of_initial_segment c _ hpre)]
  · intro b extra hb hp
    rw [hno (by rw [hp]; exact not_agrees_with_version_extra c b extra hb)]

/-- Witness of C4 (amended) on `maxVersionOtherStream`, whose payload differs
from the own version string in its last three bytes. -/
theorem C4_max_version_message_witness :
    ¬ agrees_with_version sampleConsts (next_payload (sampleClient maxVersionOtherStream)) ∧
    net_process_iter sampleConsts sampleCompressor (sampleClient maxVersionOtherStream) =
      (printf (after_message (sampleClient maxVersionOtherStream))
        "Relay network is using a later version (PLEASE UPGRADE)\n", none) :=
  ⟨by decide,
   ((C4_max_version_message sampleConsts sampleCompressor (sampleClient maxVersionOtherStream)
      (by decide) (by decide) (by decide) (by decide) (by decide) (by decide)
      (by decide)).2.1 (by decide)).1⟩

/-! ## Server selection -/

theorem selection_body_min (d : Nat → Int) (st : Selection) (i : Nat) :
    (selection_body d st i).min = if d i < st.min_duration then (i : Int) else st.min := by
  unfold selection_body
  by_cases h1 : d i ≠ milliseconds_max <;> by_cases h2 : d i < st.min_duration <;>
    simp [h1, h2]

theorem selection_body_min_duration (d : Nat → Int) (st : Selection) (i : Nat) :
    (selection_body d st i).min_duration =
      if d i < st.min_duration then d i else st.min_duration := by
  unfold selection_body
  by_cases h1 : d i ≠ milliseconds_max <;> by_cases h2 : d i < st.min_duration <;>
    simp [h1, h2]

theorem selection_fold_invariant (d : Nat → Int) (st0 : Selection)
    (hmin : st0.min = -1) (hdur : st0.min_duration = milliseconds_max) :
    ∀ k, (∀ i, i < k → d i ≤ milliseconds_max) →
      (((List.range k).foldl (selection_body d) st0).min = -1 ∧
        ((List.range k).foldl (selection_body d) st0).min_duration = milliseconds_max ∧
        ∀ i, i < k → d i = milliseconds_max) ∨
      (∃ m : Nat, m < k ∧
        ((List.range k).foldl (selection_body d) st0).min = (m : Int) ∧
        ((List.range k).foldl (selection_body d) st0).min_duration = d m ∧
        d m < milliseconds_max ∧
        (∀ i, i < k → d m ≤ d i) ∧
        (∀ i, i < m → d m < d i)) := by
  intro k
  induction k with
  | zero =>
    intro _
    left
    exact ⟨by simpa using hmin, by simpa using hdur, fun i hi => absurd hi (Nat.not_lt_zero i)⟩
  | succ k ih =>
    intro hrange
    have hk := hrange k (Nat.lt_succ_self k)
    rw [List.range_succ, List.foldl_append, List.foldl_cons, List.foldl_nil,
      selection_body_min, selection_body_min_duration]
    rcases ih (fun i hi => hrange i (Nat.lt_succ_of_lt hi)) with ⟨h1, h2, h3⟩ | ⟨m, hm, h1, h2, h3, h4, h5⟩
    · rw [h2]
      by_cases hlt : d k < milliseconds_max
      · right
        refine ⟨k, Nat.lt_succ_self k, by rw [if_pos hlt], by rw [if_pos hlt], hlt, ?_, ?_⟩
        · intro i hi
          rcases Nat.lt_succ_iff_lt_or_eq.mp hi with h | h
          · rw [h3 i h]; exact hk
          · rw [h]
        · intro i hi
          rw [h3 i hi]; exact hlt
      · left
        refine ⟨by rw [if_neg hlt, h1], by rw [if_neg hlt], ?_⟩
        intro i hi
        rcases Nat.lt_succ_iff_lt_or_eq.mp hi with h | h
        · exact h3 i h
        · rw [h]; omega
    · rw [h2]
      right
      by_cases hlt : d k < d m
      · refine ⟨k, Nat.lt_succ_self k, by rw [if_pos hlt], by rw [if_pos hlt], by omega, ?_, ?_⟩
        · intro i hi
          rcases Nat.lt_succ_iff_lt_or_eq.mp hi with h | h
          · have := h4 i h; omega
          · rw [h]
        · intro i hi
          have := h4 i hi; omega
      · refine ⟨m, Nat.lt_succ_of_lt hm, by rw [if_neg hlt, h1], by rw [if_neg hlt], h3, ?_, h5⟩
        intro i hi
        rcases Nat.lt_succ_iff_lt_or_eq.mp hi with h | h
        · exact h4 i h
        · rw [h]; omega

theorem selection_scan_chooses (d : Nat → Int) (st : Selection)
    (hrange : ∀ i, i < HOSTNAMES_TO_TEST → d i ≤ milliseconds_max)
    (hfin : ∃ i, i < HOSTNAMES_TO_TEST ∧ d i ≠ milliseconds_max) :
    ∃ m : Nat, m < HOSTNAMES_TO_TEST ∧
      (selection_scan d st).min = (m : Int) ∧
      (selection_scan d st).min_duration = d m ∧
      d m ≠ milliseconds_max ∧
      (∀ i, i < HOSTNAMES_TO_TEST → d m ≤ d i) ∧
      (∀ i, i < m → d m < d i) := by
  unfold selection_scan
  rcases selection_fold_invariant d { st with min := -1, min_duration := milliseconds_max }
      rfl rfl HOSTNAMES_TO_TEST hrange with ⟨_, _, h3⟩ | ⟨m, hm, h1, h2, h3, h4, h5⟩
  · obtain ⟨i, hi, hne⟩ := hfin
    exact absurd (h3 i hi) hne
  · exact ⟨m, hm, h1, h2, by omega, h4, h5⟩

theorem selection_round_min (d : Nat → Int) (st : Selection) :
    (selection_round d st).1.min =
      (selection_scan d { st with events := st.events ++ [MainEvent.probe_round] }).min := by
  unfold selection_round
  simp only
  split <;> rfl

theorem selection_round_of_chosen (d : Nat → Int) (st : Selection) (m : Nat)
    (h : (selection_scan d { st with events := st.events ++ [MainEvent.probe_round] }).min =
      (m : Int)) :
    (selection_round d st).2 = true ∧ (selection_round d st).1.host = sprintf_relay m := by
  have hne : ¬ ((m : Int) = -1) := by omega
  unfold selection_round
  simp only [h, hne, if_false, and_self]

/-- C6: when at least one of the 20 durations of a round is finite, the round
chooses the index `m` with `durations[m]` finite, `durations[m] <= durations[i]`
for every `i` and `durations[i] > durations[m]` for every `i < m`, leaves the
loop and formats the host name from `m`; for durations
`[inf, 50, inf, 10, inf, ...]` this is index 3 and the host
`public.03.relay.mattcorallo.com`. -/
theorem C6_selection_chooses_first_minimum (d : Nat → Int) (st : Selection)
    (hrange : ∀ i, i < HOSTNAMES_TO_TEST → d i ≤ milliseconds_max)
    (hfin : ∃ i, i < HOSTNAMES_TO_TEST ∧ d i ≠ milliseconds_max) :
    (∃ m : Nat, m < HOSTNAMES_TO_TEST ∧
      (selection_round d st).1.min = (m : Int) ∧
      d m ≠ milliseconds_max ∧
      (∀ i, i < HOSTNAMES_TO_TEST → d m ≤ d i) ∧
      (∀ i, i < m → d m < d i) ∧
      (selection_round d st).2 = true ∧
      (selection_round d st).1.host = sprintf_relay m ∧
      ∀ (probe : Nat → Nat → Int) (fuel round : Nat), probe round = d →
        selection_loop probe (fuel + 1) round st = some (selection_round d st).1) ∧
    (d 0 = milliseconds_max ∧ d 1 = 50 ∧ d 2 = milliseconds_max ∧ d 3 = 10 ∧
        (∀ i, 4 ≤ i → i < HOSTNAMES_TO_TEST → d i = milliseconds_max) →
      (selection_round d st).1.min = 3 ∧
      (selection_round d st).1.host = "public.03.relay.mattcorallo.com") := by
  obtain ⟨m, hm, h1, _, h3, h4, h5⟩ :=
    selection_scan_chooses d { st with events := st.events ++ [MainEvent.probe_round] }
      hrange hfin
  have hround := selection_round_of_chosen d st m h1
  have hmin : (selection_round d st).1.min = (m : Int) := by
    rw [selection_round_min, h1]
  refine ⟨⟨m, hm, hmin, h3, h4, h5, hround.1, hround.2, ?_⟩, ?_⟩
  · intro probe fuel round hp
    have hb := hround.1
    simp only [selection_loop, hp]
    generalize selection_round d st = r at hb
    obtain ⟨r1, r2⟩ := r
    simp only at hb
    subst hb
    rfl
  · rintro ⟨d0, d1, d2, d3, drest⟩
    have h43 := h4 3 (by decide)
    rw [d3] at h43
    have hm3 : m = 3 := by
      unfold HOSTNAMES_TO_TEST at hm drest
      unfold milliseconds_max at h3 d0 d2 drest
      by_contra hne
      have hcases : m = 0 ∨ m = 1 ∨ m = 2 ∨ 4 ≤ m := by omega
      rcases hcases with h | h | h | h
      · subst h; exact h3 d0
      · subst h; omega
      · subst h; exact h3 d2
      · exact h3 (drest m h hm)
    subst hm3
    exact ⟨hmin, by rw [hround.2]; decide⟩

/-- Witness of C6 on `sampleDurations`. -/
theorem C6_selection_chooses_first_minimum_witness :
    (∃ i, i < HOSTNAMES_TO_TEST ∧ sampleDurations i ≠ milliseconds_max) ∧
    (selection_round sampleDurations sampleSelection).1.min = 3 ∧
    (selection_round sampleDurations sampleSelection).1.host =
      "public.03.relay.mattcorallo.com" :=
  ⟨⟨3, by decide, by decide⟩,
   (C6_selection_chooses_first_minimum sampleDurations sampleSelection (by decide)
      ⟨3, by decide, by decide⟩).2
      ⟨by decide, by decide, by decide, by decide, by decide⟩⟩

/-! ## The bridge and the write path -/

theorem bytes_sent_append (t1 t2 : List Event) :
    bytes_sent (t1 ++ t2) = bytes_sent t1 ++ bytes_sent t2 := by
  induction t1 with
  | nil => rfl
  | cons e t ih =>
    cases e <;> simp [bytes_sent, ih]

theorem relay_msg_header_bytes_length (h : relay_msg_header) : h.bytes.length = 12 := by
  simp [relay_msg_header.bytes, be32_bytes]

/-- C7: a transaction delivered by the P2P side makes exactly one call,
`relayClient->receive_transaction(tx, true)`, and none to the P2P client; a
transaction delivered by the relay side makes exactly two calls, first
`p2p.receive_transaction(tx)` and then
`relayClient->receive_transaction(tx, false)`, with the same bytes. -/
theorem C7_transaction_routing (K : RelayNodeCompressor σ) (w : Bridge σ) (tx : List Nat) :
    (p2p_provide_transaction K w tx).calls =
      w.calls ++ [Call.relay_receive_transaction tx true] ∧
    (p2p_provide_transaction K w tx).relayClient =
      receive_transaction K w.relayClient tx true ∧
    (relay_provide_transaction K w tx).calls =
      w.calls ++ [Call.p2p_receive_transaction tx, Call.relay_receive_transaction tx false] ∧
    (relay_provide_transaction K w tx).relayClient =
      receive_transaction K w.relayClient tx false := by
  refine ⟨rfl, rfl, ?_, rfl⟩
  simp [relay_provide_transaction, Bridge.relay_receive_transaction,
    Bridge.p2p_receive_transaction]

/-- C8: while `connected == false`, `receive_block` and `receive_transaction`
leave the whole client state as it is (nothing sent, no compressor call, the
compressor state and `connected` unchanged); `connected` is false after the
constructor and after `on_disconnect`. -/
theorem C8_not_connected_is_noop (c : RelayConsts) (K : RelayNodeCompressor σ)
    (getblockhash : List Nat → Nat → List Nat) (s : RelayNetworkClient σ)
    (block tx : List Nat) (send_oob : Bool) (h : s.connected = false) :
    receive_block c K getblockhash s block = s ∧
    receive_transaction K s tx send_oob = s ∧
    (∀ s0 : RelayNetworkClient σ, (on_disconnect s0).connected = false) ∧
    (∀ (comp : σ) (inbound : List Nat),
      (RelayNetworkClient.construct comp inbound).connected = false) := by
  refine ⟨?_, ?_, fun _ => rfl, fun _ _ => rfl⟩
  · simp [receive_block, h]
  · simp [receive_transaction, h]

/-- Witness of C8 on a client that has just been disconnected. -/
theorem C8_not_connected_is_noop_witness :
    (on_disconnect (sampleClient [])).connected = false ∧
    receive_block sampleConsts sampleCompressor sampleHash (on_disconnect (sampleClient []))
      sampleBlock = on_disconnect (sampleClient []) ∧
    receive_transaction sampleCompressor (on_disconnect (sampleClient [])) [1, 2, 3] true =
      on_disconnect (sampleClient []) :=
  ⟨rfl,
   (C8_not_connected_is_noop sampleConsts sampleCompressor sampleHash
      (on_disconnect (sampleClient [])) sampleBlock [1, 2, 3] true rfl).1,
   (C8_not_connected_is_noop sampleConsts sampleCompressor sampleHash
      (on_disconnect (sampleClient [])) sampleBlock [1, 2, 3] true rfl).2.1⟩

/-- C9: for a block passed to `receive_block` while connected, when
`maybe_compress_block(hash, block, false)` reports an error nothing is sent and
`connected` stays true; otherwise what is sent is the compressed payload
followed by the twelve bytes of the header
`{RELAY_MAGIC_BYTES, END_BLOCK_TYPE, 0}`, and nothing else. -/
theorem C9_receive_block_connected (c : RelayConsts) (K : RelayNodeCompressor σ)
    (getblockhash : List Nat → Nat → List Nat) (s : RelayNetworkClient σ)
    (block : List Nat) (h : s.connected = true) :
    ((K.maybe_compress_block s.compressor
        (getblockhash block c.sizeof_bitcoin_msg_header) block false).1.2 ≠ none →
      (receive_block c K getblockhash s block).trace =
        s.trace ++ [Event.maybe_compress_block
          (getblockhash block c.sizeof_bitcoin_msg_header) block false] ∧
      bytes_sent (receive_block c K getblockhash s block).trace = bytes_sent s.trace ∧
      (receive_block c K getblockhash s block).connected = true) ∧
    ((K.maybe_compress_block s.compressor
        (getblockhash block c.sizeof_bitcoin_msg_header) block false).1.2 = none →
      (receive_block c K getblockhash s block).trace =
        s.trace ++ [Event.maybe_compress_block
            (getblockhash block c.sizeof_bitcoin_msg_header) block false,
          Event.send (K.maybe_compress_block s.compressor
            (getblockhash block c.sizeof_bitcoin_msg_header) block false).1.1,
          Event.send (relay_msg_header.bytes
            { magic := c.RELAY_MAGIC_BYTES, type := c.END_BLOCK_TYPE, length := 0 })] ∧
      bytes_sent (receive_block c K getblockhash s block).trace =
        bytes_sent s.trace ++
          (K.maybe_compress_block s.compressor
            (getblockhash block c.sizeof_bitcoin_msg_header) block false).1.1 ++
          relay_msg_header.bytes
            { magic := c.RELAY_MAGIC_BYTES, type := c.END_BLOCK_TYPE, length := 0 } ∧
      (relay_msg_header.bytes
        { magic := c.RELAY_MAGIC_BYTES, type := c.END_BLOCK_TYPE, length := 0 }).length = 12 ∧
      (receive_block c K getblockhash s block).connected = true) := by
  constructor
  · intro herr
    obtain ⟨e, he⟩ := Option.ne_none_iff_exists'.mp herr
    simp [receive_block, h, he, printf, bytes_sent_append, bytes_sent]
  · intro hok
    simp [receive_block, h, hok, printf, maybe_do_send_bytes, bytes_sent_append, bytes_sent,
      relay_msg_header_bytes_length]

/-- Witness of C9: the sample compressor refuses `sampleShortBlock` and
accepts `sampleBlock`. -/
theorem C9_receive_block_connected_witness :
    bytes_sent (receive_block sampleConsts sampleCompressor sampleHash (sampleClient [])
      sampleShortBlock).trace = [] ∧
    bytes_sent (receive_block sampleConsts sampleCompressor sampleHash (sampleClient [])
      sampleBlock).trace =
      bytes_sent (sampleClient []).trace ++
        (sampleCompressor.maybe_compress_block (sampleClient []).compressor
          (sampleHash sampleBlock sampleConsts.sizeof_bitcoin_msg_header) sampleBlock false).1.1 ++
        relay_msg_header.bytes
          { magic := sampleConsts.RELAY_MAGIC_BYTES, type := sampleConsts.END_BLOCK_TYPE,
            length := 0 } :=
  ⟨((C9_receive_block_connected sampleConsts sampleCompressor sampleHash (sampleClient [])
      sampleShortBlock rfl).1 (by decide)).2.1,
   ((C9_receive_block_connected sampleConsts sampleCompressor sampleHash (sampleClient [])
      sampleBlock rfl).2 (by decide)).2.1⟩

/-! ## The read loop: loose transactions -/

/-- C10: for a `TRANSACTION` header with valid magic and length `n` at most
1,000,000: when `maybe_recv_tx_of_size(n, true)` refuses, the read loop
disconnects with only the header consumed and the size check as the only call
made (no `recv_tx`, no `provide_transaction`); when it accepts and the `n`
payload bytes arrive, exactly those `n` bytes are read, registered with
`recv_tx` and then passed once to `provide_transaction`, and the loop goes on
to the next header. -/
theorem C10_transaction_message (c : RelayConsts) (K : RelayNodeCompressor σ)
    (s : RelayNetworkClient σ)
    (hd1 : c.TRANSACTION_TYPE ≠ c.VERSION_TYPE) (hd2 : c.TRANSACTION_TYPE ≠ c.SPONSOR_TYPE)
    (hd3 : c.TRANSACTION_TYPE ≠ c.MAX_VERSION_TYPE) (hd4 : c.TRANSACTION_TYPE ≠ c.BLOCK_TYPE)
    (hd5 : c.TRANSACTION_TYPE ≠ c.END_BLOCK_TYPE)
    (hlen : 4 * 3 ≤ s.inbound.length)
    (hmagic : (next_header s).magic = c.RELAY_MAGIC_BYTES)
    (htype : (next_header s).type = c.TRANSACTION_TYPE)
    (hsize : (next_header s).length ≤ 1000000) :
    ((K.maybe_recv_tx_of_size s.compressor (next_header s).length true).1 = false →
      net_process_iter c K s =
        ({ connected := s.connected,
           compressor := (K.maybe_recv_tx_of_size s.compressor (next_header s).length true).2,
           inbound := s.inbound.drop 12,
           trace := s.trace ++ [Event.maybe_recv_tx_of_size (next_header s).length true],
           stdout := s.stdout },
         some "got freely relayed transaction too large")) ∧
    ((K.maybe_recv_tx_of_size s.compressor (next_header s).length true).1 = true →
      4 * 3 + (next_header s).length ≤ s.inbound.length →
      (next_payload s).length = (next_header s).length ∧
      net_process_iter c K s =
        ({ connected := s.connected,
           compressor := K.recv_tx
             (K.maybe_recv_tx_of_size s.compressor (next_header s).length true).2
             (next_payload s),
           inbound := s.inbound.drop (12 + (next_header s).length),
           trace := s.trace ++ [Event.maybe_recv_tx_of_size (next_header s).length true,
             Event.recv_tx (next_payload s), Event.provide_transaction (next_payload s)],
           stdout := s.stdout ++ ["Received transaction of size %u from relay server\n"] },
         none)) := by
  have h1 : ¬ (next_header s).type = c.VERSION_TYPE := by rw [htype]; exact hd1
  have h2 : ¬ (next_header s).type = c.SPONSOR_TYPE := by rw [htype]; exact hd2
  have h3 : ¬ (next_header s).type = c.MAX_VERSION_TYPE := by rw [htype]; exact hd3
  have h4 : ¬ (next_header s).type = c.BLOCK_TYPE := by rw [htype]; exact hd4
  have h5 : ¬ (next_header s).type = c.END_BLOCK_TYPE := by rw [htype]; exact hd5
  have hiter : net_process_iter c K s =
      dispatch c K (after_header s) (next_header s).type (next_header s).length := by
    rw [net_process_iter_of_header c K s hlen, if_neg (by simpa using hmagic),
      if_neg (by omega)]
  constructor
  · intro href
    rw [hiter]
    simp only [dispatch, if_neg h1, if_neg h2, if_neg h3, if_neg h4, if_neg h5, if_pos htype,
      after_header, href, Bool.not_false, if_true]
  · intro hacc hfull
    have hl := next_payload_length s hfull
    refine ⟨hl, ?_⟩
    have hl2 : ¬ ((List.take (next_header s).length (List.drop (4 * 3) s.inbound)).length <
        (next_header s).length) := by
      have := hl
      simp only [next_payload] at this
      omega
    rw [hiter]
    simp only [dispatch, if_neg h1, if_neg h2, if_neg h3, if_neg h4, if_neg h5, if_pos htype,
      after_header, hacc, Bool.not_true, read_all, printf, hl2, if_false, next_payload,
      List.drop_drop, List.append_assoc, List.singleton_append, Bool.false_eq_true]
    rfl

/-- Witness of C10: the sample compressor refuses the 101 bytes declared in
`transactionRefusedStream` and accepts the three bytes of `transactionStream`. -/
theorem C10_transaction_message_witness :
    (net_process_iter sampleConsts sampleCompressor
      (sampleClient transactionRefusedStream)).2 =
      some "got freely relayed transaction too large" ∧
    (net_process_iter sampleConsts sampleCompressor (sampleClient transactionStream)).1.trace =
      [Event.maybe_recv_tx_of_size 3 true, Event.recv_tx [1, 2, 3],
        Event.provide_transaction [1, 2, 3]] :=
  ⟨congrArg Prod.snd
    ((C10_transaction_message sampleConsts sampleCompressor
      (sampleClient transactionRefusedStream) (by decide) (by decide) (by decide) (by decide)
      (by decide) (by decide) (by decide) (by decide) (by decide)).1 (by decide)),
   congrArg (fun r => r.1.trace)
    ((C10_transaction_message sampleConsts sampleCompressor
      (sampleClient transactionStream) (by decide) (by decide) (by decide) (by decide)
      (by decide) (by decide) (by decide) (by decide) (by decide)).2 (by decide)
      (by decide)).2⟩

/-! ## The read loop returns -/

theorem dispatch_inbound_le (c : RelayConsts) (K : RelayNodeCompressor σ)
    (s : RelayNetworkClient σ) (type message_size : Nat) :
    (dispatch c K s type message_size).1.inbound.length ≤ s.inbound.length := by
  unfold dispatch
  simp only
  split_ifs <;> try split
  all_goals simp [read_all, printf]

theorem net_process_iter_continue_shrinks (c : RelayConsts) (K : RelayNodeCompressor σ)
    (s s1 : RelayNetworkClient σ) (h : net_process_iter c K s = (s1, none)) :
    s1.inbound.length + 12 ≤ s.inbound.length := by
  by_cases hlen : 4 * 3 ≤ s.inbound.length
  · rw [net_process_iter_of_header c K s hlen] at h
    split_ifs at h
    · simp at h
    · simp at h
    · have hle := dispatch_inbound_le c K (after_header s) (next_header s).type
        (next_header s).length
      rw [h] at hle
      simp only [after_header, List.length_drop] at hle
      omega
  · have h12 : ¬ ((s.inbound.take (4 * 3)).length = 4 * 3) := by
      rw [List.length_take]; omega
    simp only [net_process_iter, read_all, ne_eq, h12, not_false_eq_true, if_true] at h
    simp at h

theorem net_process_loop_returns (c : RelayConsts) (K : RelayNodeCompressor σ) :
    ∀ (fuel : Nat) (s : RelayNetworkClient σ), s.inbound.length < fuel →
      ∃ s1 reason, net_process_loop c K fuel s = (s1, some reason) := by
  intro fuel
  induction fuel with
  | zero => intro s h; exact absurd h (Nat.not_lt_zero _)
  | succ fuel ih =>
    intro s h
    rcases hit : net_process_iter c K s with ⟨s1, _ | reason⟩
    · have hs := net_process_iter_continue_shrinks c K s s1 hit
      rw [net_process_loop_of_continue c K s s1 hit]
      exact ih s1 (by omega)
    · exact ⟨s1, reason, net_process_loop_of_disconnect c K s s1 reason hit fuel⟩

theorem net_process_returns (c : RelayConsts) (K : RelayNodeCompressor σ)
    (s : RelayNetworkClient σ) :
    ∃ s1 reason, net_process c K s = (s1, some reason) := by
  unfold net_process
  exact net_process_loop_returns c K _ _ (by simp [net_process_start, maybe_do_send_bytes])

/-! ## The write path: transactions -/

/-- C11: for a transaction passed to `receive_transaction` while connected,
the message comes from `tx_to_msg(tx, true)` when `send_oob` is true and from
`get_relay_transaction(tx)` when it is false; when the compressor returns
nothing, no byte is sent and `connected` stays true; otherwise the bytes sent
are exactly the returned message, in one send and with nothing added. -/
theorem C11_receive_transaction_connected (K : RelayNodeCompressor σ)
    (s : RelayNetworkClient σ) (tx : List Nat) (h : s.connected = true) :
    ((K.tx_to_msg s.compressor tx true).1 = none →
      (receive_transaction K s tx true).trace = s.trace ++ [Event.tx_to_msg tx true] ∧
      bytes_sent (receive_transaction K s tx true).trace = bytes_sent s.trace ∧
      (receive_transaction K s tx true).connected = true) ∧
    (∀ msg, (K.tx_to_msg s.compressor tx true).1 = some msg →
      (receive_transaction K s tx true).trace =
        s.trace ++ [Event.tx_to_msg tx true, Event.send msg] ∧
      bytes_sent (receive_transaction K s tx true).trace = bytes_sent s.trace ++ msg ∧
      (receive_transaction K s tx true).connected = true) ∧
    ((K.get_relay_transaction s.compressor tx).1 = none →
      (receive_transaction K s tx false).trace =
        s.trace ++ [Event.get_relay_transaction tx] ∧
      bytes_sent (receive_transaction K s tx false).trace = bytes_sent s.trace ∧
      (receive_transaction K s tx false).connected = true) ∧
    (∀ msg, (K.get_relay_transaction s.compressor tx).1 = some msg →
      (receive_transaction K s tx false).trace =
        s.trace ++ [Event.get_relay_transaction tx, Event.send msg] ∧
      bytes_sent (receive_transaction K s tx false).trace = bytes_sent s.trace ++ msg ∧
      (receive_transaction K s tx false).connected = true) := by
  refine ⟨?_, ?_, ?_, ?_⟩
  · intro hnone
    simp [receive_transaction, h, hnone, bytes_sent_append, bytes_sent]
  · intro msg hsome
    simp [receive_transaction, h, hsome, printf, maybe_do_send_bytes, bytes_sent_append,
      bytes_sent]
  · intro hnone
    simp [receive_transaction, h, hnone, bytes_sent_append, bytes_sent]
  · intro msg hsome
    simp [receive_transaction, h, hsome, printf, maybe_do_send_bytes, bytes_sent_append,
      bytes_sent]

/-- Witness of C11: out of band the sample compressor returns the framed
transaction, which is what is sent; in band it returns nothing for a
transaction it has seen, and nothing is sent. -/
theorem C11_receive_transaction_connected_witness :
    bytes_sent (receive_transaction sampleCompressor (sampleClient []) [1, 2, 3] true).trace =
      bytes_sent (sampleClient []).trace ++ [0, 0, 0, 3, 1, 2, 3] ∧
    bytes_sent (receive_transaction sampleCompressor knownTxClient [1, 2, 3] false).trace =
      bytes_sent knownTxClient.trace :=
  ⟨((C11_receive_transaction_connected sampleCompressor (sampleClient []) [1, 2, 3] rfl).2.1
      [0, 0, 0, 3, 1, 2, 3] (by decide)).2.1,
   ((C11_receive_transaction_connected sampleCompressor knownTxClient [1, 2, 3] rfl).2.2.1
      (by decide)).2.1⟩

/-! ## The read loop: blocks -/

/-- C12: for a `BLOCK` header with valid magic and length at most 1,000,000,
the length and the connection (the bytes after the header) are handed to
`decompress_relay_block`; when it reports an error the read loop disconnects
with exactly that error and `provide_block` is not called; when it succeeds
`provide_block` is called once with the block it returned and the loop goes on
to the next header. -/
theorem C12_block_message (c : RelayConsts) (K : RelayNodeCompressor σ)
    (s : RelayNetworkClient σ)
    (hd1 : c.BLOCK_TYPE ≠ c.VERSION_TYPE) (hd2 : c.BLOCK_TYPE ≠ c.SPONSOR_TYPE)
    (hd3 : c.BLOCK_TYPE ≠ c.MAX_VERSION_TYPE)
    (hlen : 4 * 3 ≤ s.inbound.length)
    (hmagic : (next_header s).magic = c.RELAY_MAGIC_BYTES)
    (htype : (next_header s).type = c.BLOCK_TYPE)
    (hsize : (next_header s).length ≤ 1000000) :
    (∀ e, (K.decompress_relay_block s.compressor (s.inbound.drop 12)
          (next_header s).length false).1.error = some e →
      net_process_iter c K s =
        ({ connected := s.connected,
           compressor := (K.decompress_relay_block s.compressor (s.inbound.drop 12)
             (next_header s).length false).2,
           inbound := (s.inbound.drop 12).drop
             (K.decompress_relay_block s.compressor (s.inbound.drop 12)
               (next_header s).length false).1.consumed,
           trace := s.trace ++ [Event.decompress_relay_block (next_header s).length false],
           stdout := s.stdout },
         some e)) ∧
    ((K.decompress_relay_block s.compressor (s.inbound.drop 12)
          (next_header s).length false).1.error = none →
      (net_process_iter c K s).2 = none ∧
      (net_process_iter c K s).1.trace =
        s.trace ++ [Event.decompress_relay_block (next_header s).length false,
          Event.provide_block (K.decompress_relay_block s.compressor (s.inbound.drop 12)
            (next_header s).length false).1.block] ∧
      (net_process_iter c K s).1.compressor =
        (K.decompress_relay_block s.compressor (s.inbound.drop 12)
          (next_header s).length false).2 ∧
      (net_process_iter c K s).1.inbound =
        (s.inbound.drop 12).drop
          (K.decompress_relay_block s.compressor (s.inbound.drop 12)
            (next_header s).length false).1.consumed ∧
      (net_process_iter c K s).1.connected = s.connected ∧
      ∀ fuel, net_process_loop c K (fuel + 1) s =
        net_process_loop c K fuel (net_process_iter c K s).1) := by
  have h1 : ¬ (next_header s).type = c.VERSION_TYPE := by rw [htype]; exact hd1
  have h2 : ¬ (next_header s).type = c.SPONSOR_TYPE := by rw [htype]; exact hd2
  have h3 : ¬ (next_header s).type = c.MAX_VERSION_TYPE := by rw [htype]; exact hd3
  have hiter : net_process_iter c K s =
      dispatch c K (after_header s) (next_header s).type (next_header s).length := by
    rw [net_process_iter_of_header c K s hlen, if_neg (by simpa using hmagic),
      if_neg (by omega)]
  constructor
  · intro e he
    rw [hiter]
    simp only [dispatch, if_neg h1, if_neg h2, if_neg h3, if_pos htype, after_header]
    simp only [show (4 * 3 : Nat) = 12 from rfl, he]
  · intro hok
    have hres : (net_process_iter c K s).2 = none := by
      rw [hiter]
      simp only [dispatch, if_neg h1, if_neg h2, if_neg h3, if_pos htype, after_header]
      simp only [show (4 * 3 : Nat) = 12 from rfl, hok]
    refine ⟨hres, ?_, ?_, ?_, ?_, ?_⟩
    · rw [hiter]
      simp only [dispatch, if_neg h1, if_neg h2, if_neg h3, if_pos htype, after_header]
      simp only [show (4 * 3 : Nat) = 12 from rfl, hok, printf, List.append_assoc,
        List.singleton_append]
    · rw [hiter]
      simp only [dispatch, if_neg h1, if_neg h2, if_neg h3, if_pos htype, after_header]
      simp only [show (4 * 3 : Nat) = 12 from rfl, hok, printf]
    · rw [hiter]
      simp only [dispatch, if_neg h1, if_neg h2, if_neg h3, if_pos htype, after_header]
      simp only [show (4 * 3 : Nat) = 12 from rfl, hok, printf]
    · rw [hiter]
      simp only [dispatch, if_neg h1, if_neg h2, if_neg h3, if_pos htype, after_header]
      simp only [show (4 * 3 : Nat) = 12 from rfl, hok, printf]
    · intro fuel
      exact net_process_loop_of_continue c K s _ (Prod.ext rfl hres) fuel

/-- Witness of C12: the sample decompressor fails on `blockErrorStream` and
returns the four payload bytes of `blockStream`. -/
theorem C12_block_message_witness :
    (net_process_iter sampleConsts sampleCompressor (sampleClient blockErrorStream)).2 =
      some "failed to read block data" ∧
    (net_process_iter sampleConsts sampleCompressor (sampleClient blockErrorStream)).1.trace =
      [Event.decompress_relay_block 4 false] ∧
    (net_process_iter sampleConsts sampleCompressor (sampleClient blockStream)).2 = none ∧
    (net_process_iter sampleConsts sampleCompressor (sampleClient blockStream)).1.trace =
      [Event.decompress_relay_block 4 false, Event.provide_block [9, 9, 9, 9]] :=
  ⟨congrArg Prod.snd
    ((C12_block_message sampleConsts sampleCompressor (sampleClient blockErrorStream)
      (by decide) (by decide) (by decide) (by decide) (by decide) (by decide) (by decide)).1
      "failed to read block data" (by decide)),
   congrArg (fun r => r.1.trace)
    ((C12_block_message sampleConsts sampleCompressor (sampleClient blockErrorStream)
      (by decide) (by decide) (by decide) (by decide) (by decide) (by decide) (by decide)).1
      "failed to read block data" (by decide)),
   ((C12_block_message sampleConsts sampleCompressor (sampleClient blockStream)
      (by decide) (by decide) (by decide) (by decide) (by decide) (by decide) (by decide)).2
      (by decide)).1,
   ((C12_block_message sampleConsts sampleCompressor (sampleClient blockStream)
      (by decide) (by decide) (by decide) (by decide) (by decide) (by decide) (by decide)).2
      (by decide)).2.1⟩

/-! ## The handshake -/

theorem dispatch_connected (c : RelayConsts) (K : RelayNodeCompressor σ)
    (s : RelayNetworkClient σ) (type message_size : Nat) :
    (dispatch c K s type message_size).1.connected = s.connected := by
  unfold dispatch
  simp only
  split_ifs <;> try split
  all_goals simp [read_all, printf]

theorem net_process_iter_connected (c : RelayConsts) (K : RelayNodeCompressor σ)
    (s : RelayNetworkClient σ) :
    (net_process_iter c K s).1.connected = s.connected := by
  unfold net_process_iter
  simp only
  split_ifs
  · rfl
  · rfl
  · rfl
  · rw [dispatch_connected]; rfl

theorem net_process_loop_connected (c : RelayConsts) (K : RelayNodeCompressor σ) :
    ∀ (fuel : Nat) (s : RelayNetworkClient σ),
      (net_process_loop c K fuel s).1.connected = s.connected := by
  intro fuel
  induction fuel with
  | zero => intro s; rfl
  | succ fuel ih =>
    intro s
    have hc := net_process_iter_connected c K s
    rcases hit : net_process_iter c K s with ⟨s1, _ | reason⟩
    · rw [net_process_loop_of_continue c K s s1 hit, ih s1]
      rw [hit] at hc; exact hc
    · rw [net_process_loop_of_disconnect c K s s1 reason hit]
      rw [hit] at hc; exact hc

/-- C13: in every run of `net_process` that starts with `connected == false`
(after the constructor or after `on_disconnect`), before any byte is read the
compressor is reset, then exactly `12 + strlen(VERSION_STRING)` bytes are sent,
the header `{RELAY_MAGIC_BYTES, VERSION_TYPE, strlen(VERSION_STRING)}` in wire
order followed by the version string without terminator, with `connected`
still false; then `connected` is set to true, and the loop that reads and
dispatches headers runs with `connected == true` throughout. -/
theorem C13_version_sent_before_reading (c : RelayConsts) (K : RelayNodeCompressor σ)
    (s : RelayNetworkClient σ) (h : s.connected = false) :
    (net_process_handshake c K s).trace =
      s.trace ++ [Event.compressor_reset,
        Event.send (be32_bytes c.RELAY_MAGIC_BYTES ++ be32_bytes c.VERSION_TYPE ++
          be32_bytes (strlen_VERSION_STRING c)),
        Event.send c.VERSION_STRING] ∧
    bytes_sent (net_process_handshake c K s).trace =
      bytes_sent s.trace ++ (be32_bytes c.RELAY_MAGIC_BYTES ++ be32_bytes c.VERSION_TYPE ++
        be32_bytes (strlen_VERSION_STRING c) ++ c.VERSION_STRING) ∧
    (be32_bytes c.RELAY_MAGIC_BYTES ++ be32_bytes c.VERSION_TYPE ++
        be32_bytes (strlen_VERSION_STRING c) ++ c.VERSION_STRING).length =
      12 + strlen_VERSION_STRING c ∧
    (net_process_handshake c K s).compressor = K.reset s.compressor ∧
    (net_process_handshake c K s).inbound = s.inbound ∧
    (net_process_handshake c K s).connected = false ∧
    net_process_start c K s = { net_process_handshake c K s with connected := true } ∧
    net_process c K s =
      net_process_loop c K (s.inbound.length + 1) (net_process_start c K s) ∧
    (∀ s1 : RelayNetworkClient σ, (net_process_iter c K s1).1.connected = s1.connected) ∧
    (net_process c K s).1.connected = true := by
  refine ⟨?_, ?_, ?_, rfl, rfl, h, rfl, rfl, net_process_iter_connected c K, ?_⟩
  · simp [net_process_handshake, maybe_do_send_bytes, relay_msg_header.bytes]
  · simp [net_process_handshake, maybe_do_send_bytes, relay_msg_header.bytes,
      bytes_sent_append, bytes_sent]
  · simp [be32_bytes, strlen_VERSION_STRING]; omega
  · unfold net_process
    rw [net_process_loop_connected]
    rfl

/-- Witness of C13 on a freshly constructed client with `versionStream`
waiting on the connection. -/
theorem C13_version_sent_before_reading_witness :
    (RelayNetworkClient.construct ([] : List (List Nat)) versionStream).connected = false ∧
    (net_process_handshake sampleConsts sampleCompressor
      (RelayNetworkClient.construct [] versionStream)).trace =
      [Event.compressor_reset,
        Event.send [0xF2, 0xBE, 0xEF, 0x42, 0, 0, 0, 0, 0, 0, 0, 9],
        Event.send [114, 101, 108, 97, 121, 32, 111, 110, 101]] ∧
    (net_process_handshake sampleConsts sampleCompressor
      (RelayNetworkClient.construct [] versionStream)).inbound = versionStream :=
  ⟨rfl,
   (C13_version_sent_before_reading sampleConsts sampleCompressor
      (RelayNetworkClient.construct [] versionStream) rfl).1,
   (C13_version_sent_before_reading sampleConsts sampleCompressor
      (RelayNetworkClient.construct [] versionStream) rfl).2.2.2.2.1⟩

/-! ## Server selection: rounds without a reachable host, and the wait -/

theorem selection_body_of_unreachable (d : Nat → Int) (st : Selection) (i : Nat)
    (hd : d i = milliseconds_max) (hst : st.min_duration = milliseconds_max) :
    selection_body d st i = st := by
  simp [selection_body, hd, hst]

theorem selection_fold_of_unreachable (d : Nat → Int) :
    ∀ (l : List Nat) (st : Selection), (∀ i ∈ l, d i = milliseconds_max) →
      st.min_duration = milliseconds_max → l.foldl (selection_body d) st = st := by
  intro l
  induction l with
  | nil => intro st _ _; rfl
  | cons a l ih =>
    intro st hall hst
    rw [List.foldl_cons,
      selection_body_of_unreachable d st a (hall a (List.mem_cons_self a l)) hst]
    exact ih st (fun i hi => hall i (List.mem_cons_of_mem a hi)) hst

theorem selection_round_of_unreachable (d : Nat → Int) (st : Selection)
    (hall : ∀ i, i < HOSTNAMES_TO_TEST → d i = milliseconds_max) :
    selection_round d st =
      ({ min := -1, min_duration := milliseconds_max, host := st.host,
         events := st.events ++ [MainEvent.probe_round, MainEvent.sleep_for_seconds 10,
           MainEvent.printf "No servers responded\n"] }, false) := by
  have hfold := selection_fold_of_unreachable d (List.range HOSTNAMES_TO_TEST)
    { st with events := st.events ++ [MainEvent.probe_round], min := -1,
              min_duration := milliseconds_max }
    (fun i hi => hall i (List.mem_range.mp hi)) rfl
  simp only [selection_round, selection_scan, hfold, if_true, List.append_assoc,
    List.singleton_append]
  rfl

theorem selection_loop_of_unreachable (probe : Nat → Nat → Int)
    (hall : ∀ r i, i < HOSTNAMES_TO_TEST → probe r i = milliseconds_max) :
    ∀ (fuel round : Nat) (st : Selection), selection_loop probe fuel round st = none := by
  intro fuel
  induction fuel with
  | zero => intro round st; rfl
  | succ fuel ih =>
    intro round st
    simp only [selection_loop, selection_round_of_unreachable (probe round) st (hall round)]
    exact ih _ _

/-- C14: when all 20 durations of a round are `milliseconds::max`, the round
selects no host (`min` stays -1), sleeps, prints "No servers responded" and
starts a new probe round with the `host` buffer untouched; and when every
round is like that, the loop never leaves and never formats a host, for any
number of rounds. -/
theorem C14_all_unreachable_retries (d : Nat → Int) (st : Selection)
    (hall : ∀ i, i < HOSTNAMES_TO_TEST → d i = milliseconds_max) :
    selection_round d st =
      ({ min := -1, min_duration := milliseconds_max, host := st.host,
         events := st.events ++ [MainEvent.probe_round, MainEvent.sleep_for_seconds 10,
           MainEvent.printf "No servers responded\n"] }, false) ∧
    (∀ (probe : Nat → Nat → Int) (fuel round : Nat), probe round = d →
      selection_loop probe (fuel + 1) round st =
        selection_loop probe fuel (round + 1)
          { min := -1, min_duration := milliseconds_max, host := st.host,
            events := st.events ++ [MainEvent.probe_round, MainEvent.sleep_for_seconds 10,
              MainEvent.printf "No servers responded\n"] }) ∧
    (∀ (probe : Nat → Nat → Int),
      (∀ r i, i < HOSTNAMES_TO_TEST → probe r i = milliseconds_max) →
      ∀ (fuel round : Nat) (st0 : Selection), selection_loop probe fuel round st0 = none) := by
  refine ⟨selection_round_of_unreachable d st hall, ?_, ?_⟩
  · intro probe fuel round hp
    simp only [selection_loop, hp, selection_round_of_unreachable d st hall]
  · intro probe hp
    exact selection_loop_of_unreachable probe hp

/-- Witness of C14 on `unreachableDurations`. -/
theorem C14_all_unreachable_retries_witness :
    (∀ i, i < HOSTNAMES_TO_TEST → unreachableDurations i = milliseconds_max) ∧
    selection_round unreachableDurations sampleSelection =
      ({ min := -1, min_duration := milliseconds_max, host := "",
         events := [MainEvent.probe_round, MainEvent.sleep_for_seconds 10,
           MainEvent.printf "No servers responded\n"] }, false) ∧
    selection_loop (fun _ => unreachableDurations) 7 0 sampleSelection = none :=
  ⟨fun _ _ => rfl,
   (C14_all_unreachable_retries unreachableDurations sampleSelection (fun _ _ => rfl)).1,
   (C14_all_unreachable_retries unreachableDurations sampleSelection (fun _ _ => rfl)).2.2
     (fun _ => unreachableDurations) (fun _ _ _ => rfl) 7 0 sampleSelection⟩

theorem selection_body_events (d : Nat → Int) (st : Selection) (i : Nat) :
    (selection_body d st i).events =
      st.events ++ (if d i ≠ milliseconds_max then
        [MainEvent.printf "Server %d (%s) took %lld ms to respond %d times.\n"] else []) := by
  unfold selection_body
  by_cases h1 : d i ≠ milliseconds_max <;> by_cases h2 : d i < st.min_duration <;>
    simp [h1, h2]

theorem selection_fold_events (d : Nat → Int) (st : Selection) :
    ∀ k, ((List.range k).foldl (selection_body d) st).events =
      st.events ++ server_prints d k := by
  intro k
  induction k with
  | zero => simp [server_prints]
  | succ k ih =>
    rw [List.range_succ, List.foldl_append, List.foldl_cons, List.foldl_nil,
      selection_body_events, ih]
    unfold server_prints
    rw [List.range_succ, List.filter_append, List.map_append, List.append_assoc]
    congr 1
    congr 1
    by_cases h : d k ≠ milliseconds_max
    · simp [h]
    · simp [h]

theorem sleep_not_in_server_prints (d : Nat → Int) (k : Nat) :
    List.count (MainEvent.sleep_for_seconds 10) (server_prints d k) = 0 := by
  rw [List.count_eq_zero]
  simp [server_prints]

/-- C20: in every round the state reached right after the 10-second wait has
the events of the round so far, namely the probe round, one line per finite
candidate and then the wait; the round ends from that state, by printing "No
servers responded" and going round again when `min` is -1, by formatting the
host from `min` and leaving the loop otherwise.  So the wait runs exactly once
in every round, also in the round that selects a host, after the minimum is
computed and before the host is formatted. -/
theorem C20_wait_once_in_every_round (d : Nat → Int) (st : Selection) :
    (selection_after_sleep d st).events =
      st.events ++ [MainEvent.probe_round] ++ server_prints d HOSTNAMES_TO_TEST ++
        [MainEvent.sleep_for_seconds 10] ∧
    (selection_after_sleep d st).min =
      (selection_scan d { st with events := st.events ++ [MainEvent.probe_round] }).min ∧
    ((selection_after_sleep d st).min = -1 →
      selection_round d st =
        ({ selection_after_sleep d st with
            events := (selection_after_sleep d st).events ++
              [MainEvent.printf "No servers responded\n"] }, false)) ∧
    ((selection_after_sleep d st).min ≠ -1 →
      selection_round d st =
        ({ selection_after_sleep d st with
            host := sprintf_relay (selection_after_sleep d st).min }, true)) ∧
    List.count (MainEvent.sleep_for_seconds 10) (selection_round d st).1.events =
      List.count (MainEvent.sleep_for_seconds 10) st.events + 1 := by
  have hev : (selection_after_sleep d st).events =
      st.events ++ [MainEvent.probe_round] ++ server_prints d HOSTNAMES_TO_TEST ++
        [MainEvent.sleep_for_seconds 10] := by
    simp only [selection_after_sleep, selection_scan, selection_fold_events]
  have hfail : (selection_after_sleep d st).min = -1 →
      selection_round d st =
        ({ selection_after_sleep d st with
            events := (selection_after_sleep d st).events ++
              [MainEvent.printf "No servers responded\n"] }, false) := by
    intro hm
    simp only [selection_after_sleep] at hm
    simp only [selection_round, selection_after_sleep, hm, if_true]
  have hsucc : (selection_after_sleep d st).min ≠ -1 →
      selection_round d st =
        ({ selection_after_sleep d st with
            host := sprintf_relay (selection_after_sleep d st).min }, true) := by
    intro hm
    simp only [selection_after_sleep] at hm
    simp only [selection_round, selection_after_sleep, hm, if_false]
  refine ⟨hev, rfl, hfail, hsucc, ?_⟩
  by_cases hm : (selection_after_sleep d st).min = -1
  · rw [hfail hm]
    simp only [hev, List.count_append, sleep_not_in_server_prints]
    simp
  · rw [hsucc hm]
    simp only [hev, List.count_append, sleep_not_in_server_prints]
    simp

/-! ## The read loop: short reads, `END_BLOCK`, reasons -/

theorem distinct_tags_ne (c : RelayConsts) (hd : distinct_tags c) :
    c.SPONSOR_TYPE ≠ c.VERSION_TYPE ∧
    c.MAX_VERSION_TYPE ≠ c.VERSION_TYPE ∧ c.MAX_VERSION_TYPE ≠ c.SPONSOR_TYPE ∧
    c.BLOCK_TYPE ≠ c.VERSION_TYPE ∧ c.BLOCK_TYPE ≠ c.SPONSOR_TYPE ∧
    c.BLOCK_TYPE ≠ c.MAX_VERSION_TYPE ∧
    c.END_BLOCK_TYPE ≠ c.VERSION_TYPE ∧ c.END_BLOCK_TYPE ≠ c.SPONSOR_TYPE ∧
    c.END_BLOCK_TYPE ≠ c.MAX_VERSION_TYPE ∧ c.END_BLOCK_TYPE ≠ c.BLOCK_TYPE ∧
    c.TRANSACTION_TYPE ≠ c.VERSION_TYPE ∧ c.TRANSACTION_TYPE ≠ c.SPONSOR_TYPE ∧
    c.TRANSACTION_TYPE ≠ c.MAX_VERSION_TYPE ∧ c.TRANSACTION_TYPE ≠ c.BLOCK_TYPE ∧
    c.TRANSACTION_TYPE ≠ c.END_BLOCK_TYPE := by
  unfold distinct_tags at hd
  simp only [List.nodup_cons, List.mem_cons, List.mem_singleton, not_or, List.not_mem_nil,
    not_false_eq_true, List.nodup_nil, and_true] at hd
  obtain ⟨⟨a1, a2, a3, a4, a5⟩, ⟨b1, b2, b3, b4⟩, ⟨c1, c2, c3⟩, ⟨d1, d2⟩, e1⟩ := hd
  exact ⟨Ne.symm a1, Ne.symm a2, Ne.symm b1, Ne.symm a3, Ne.symm b2, Ne.symm c1, Ne.symm a4,
    Ne.symm b3, Ne.symm c2, Ne.symm d1, Ne.symm a5, Ne.symm b4, Ne.symm c3, Ne.symm d2,
    Ne.symm e1⟩

theorem short_payload_read (s : RelayNetworkClient σ) (hlen : 4 * 3 ≤ s.inbound.length)
    (hshort : s.inbound.length < 4 * 3 + (next_header s).length) :
    (read_all (after_header s) (next_header s).length).1.length < (next_header s).length ∧
    (read_all (after_header s) (next_header s).length).2 = { s with inbound := [] } := by
  constructor
  · simp only [read_all, after_header, List.length_take, List.length_drop]
    omega
  · simp only [read_all, after_header, List.drop_drop]
    rw [List.drop_eq_nil_of_le (by omega)]

/-- C15: when the header read returns fewer than twelve bytes the read loop
disconnects with "failed to read message header" and nothing is dispatched
(compressor and trace unchanged); and for a `VERSION`, `SPONSOR`,
`MAX_VERSION` or `TRANSACTION` header whose payload ends before the declared
length, the read loop disconnects, in the `TRANSACTION` case with the size
check as the only call made (no `recv_tx`, no `provide_transaction`). -/
theorem C15_short_reads_disconnect (c : RelayConsts) (K : RelayNodeCompressor σ)
    (s : RelayNetworkClient σ) (hd : distinct_tags c) :
    (s.inbound.length < 4 * 3 →
      net_process_iter c K s = ({ s with inbound := [] }, some "failed to read message header")) ∧
    (4 * 3 ≤ s.inbound.length → (next_header s).magic = c.RELAY_MAGIC_BYTES →
      (next_header s).length ≤ 1000000 →
      s.inbound.length < 4 * 3 + (next_header s).length →
      ((next_header s).type = c.VERSION_TYPE →
        net_process_iter c K s =
          ({ s with inbound := [] }, some "failed to read version message")) ∧
      ((next_header s).type = c.SPONSOR_TYPE →
        net_process_iter c K s =
          ({ s with inbound := [] }, some "failed to read sponsor string")) ∧
      ((next_header s).type = c.MAX_VERSION_TYPE →
        net_process_iter c K s =
          ({ s with inbound := [] }, some "failed to read max_version string")) ∧
      ((next_header s).type = c.TRANSACTION_TYPE →
        (∃ reason, (net_process_iter c K s).2 = some reason) ∧
        (net_process_iter c K s).1.trace =
          s.trace ++ [Event.maybe_recv_tx_of_size (next_header s).length true] ∧
        ((K.maybe_recv_tx_of_size s.compressor (next_header s).length true).1 = true →
          (net_process_iter c K s).2 = some "failed to read loose transaction data"))) := by
  obtain ⟨n1, n2, n3, _, _, _, _, _, _, _, n11, n12, n13, n14, n15⟩ := distinct_tags_ne c hd
  constructor
  · intro hshort
    have h12 : ¬ ((s.inbound.take (4 * 3)).length = 4 * 3) := by
      rw [List.length_take]; omega
    simp only [net_process_iter, read_all, ne_eq, h12, not_false_eq_true, if_true]
    rw [List.drop_eq_nil_of_le (by omega)]
  · intro hlen hmagic hsize hshort
    have hiter : net_process_iter c K s =
        dispatch c K (after_header s) (next_header s).type (next_header s).length := by
      rw [net_process_iter_of_header c K s hlen, if_neg (by simpa using hmagic),
        if_neg (by omega)]
    obtain ⟨hlt, hst⟩ := short_payload_read s hlen hshort
    refine ⟨?_, ?_, ?_, ?_⟩
    · intro htype
      rw [hiter]
      simp only [dispatch, if_pos htype, if_pos hlt, hst]
    · intro htype
      have h1 : ¬ (next_header s).type = c.VERSION_TYPE := by rw [htype]; exact n1
      rw [hiter]
      simp only [dispatch, if_neg h1, if_pos htype, if_pos hlt, hst]
    · intro htype
      have h1 : ¬ (next_header s).type = c.VERSION_TYPE := by rw [htype]; exact n2
      have h2 : ¬ (next_header s).type = c.SPONSOR_TYPE := by rw [htype]; exact n3
      rw [hiter]
      simp only [dispatch, if_neg h1, if_neg h2, if_pos htype, if_pos hlt, hst]
    · intro htype
      have h1 : ¬ (next_header s).type = c.VERSION_TYPE := by rw [htype]; exact n11
      have h2 : ¬ (next_header s).type = c.SPONSOR_TYPE := by rw [htype]; exact n12
      have h3 : ¬ (next_header s).type = c.MAX_VERSION_TYPE := by rw [htype]; exact n13
      have h4 : ¬ (next_header s).type = c.BLOCK_TYPE := by rw [htype]; exact n14
      have h5 : ¬ (next_header s).type = c.END_BLOCK_TYPE := by rw [htype]; exact n15
      have hlt2 : (List.take (next_header s).length (List.drop (4 * 3) s.inbound)).length <
          (next_header s).length := by
        simp only [List.length_take, List.length_drop]; omega
      rw [hiter]
      simp only [dispatch, if_neg h1, if_neg h2, if_neg h3, if_neg h4, if_neg h5, if_pos htype,
        after_header, read_all, if_pos hlt2]
      cases hacc : (K.maybe_recv_tx_of_size s.compressor (next_header s).length true).1
      · simp
      · simp

/-- Witness of C15 on `shortHeaderStream`, `shortVersionStream` and
`shortTransactionStream`. -/
theorem C15_short_reads_disconnect_witness :
    (net_process_iter sampleConsts sampleCompressor (sampleClient shortHeaderStream) =
      ({ sampleClient shortHeaderStream with inbound := [] },
        some "failed to read message header")) ∧
    (net_process_iter sampleConsts sampleCompressor (sampleClient shortVersionStream) =
      ({ sampleClient shortVersionStream with inbound := [] },
        some "failed to read version message")) ∧
    (net_process_iter sampleConsts sampleCompressor (sampleClient shortTransactionStream)).2 =
      some "failed to read loose transaction data" ∧
    (net_process_iter sampleConsts sampleCompressor (sampleClient shortTransactionStream)).1.trace =
      [Event.maybe_recv_tx_of_size 3 true] :=
  ⟨(C15_short_reads_disconnect sampleConsts sampleCompressor (sampleClient shortHeaderStream)
      (by decide)).1 (by decide),
   ((C15_short_reads_disconnect sampleConsts sampleCompressor (sampleClient shortVersionStream)
      (by decide)).2 (by decide) (by decide) (by decide) (by decide)).1 (by decide),
   (((C15_short_reads_disconnect sampleConsts sampleCompressor
      (sampleClient shortTransactionStream) (by decide)).2 (by decide) (by decide) (by decide)
      (by decide)).2.2.2 (by decide)).2.2 (by decide),
   (((C15_short_reads_disconnect sampleConsts sampleCompressor
      (sampleClient shortTransactionStream) (by decide)).2 (by decide) (by decide) (by decide)
      (by decide)).2.2.2 (by decide)).2.1⟩

/-- C18: an `END_BLOCK` header with valid magic and any declared length up to
1,000,000 makes the read loop go on without a payload read, a compressor call,
a provide call or a disconnect, and with `connected` unchanged: exactly the
twelve header bytes are consumed, and the next pass parses the twelve bytes
that follow as a header. -/
theorem C18_end_block_is_noop (c : RelayConsts) (K : RelayNodeCompressor σ)
    (s : RelayNetworkClient σ) (hd : distinct_tags c)
    (hlen : 4 * 3 ≤ s.inbound.length)
    (hmagic : (next_header s).magic = c.RELAY_MAGIC_BYTES)
    (htype : (next_header s).type = c.END_BLOCK_TYPE)
    (hsize : (next_header s).length ≤ 1000000) :
    net_process_iter c K s = (after_header s, none) ∧
    (after_header s).inbound = s.inbound.drop 12 ∧
    (after_header s).compressor = s.compressor ∧
    (after_header s).trace = s.trace ∧
    (after_header s).connected = s.connected ∧
    (after_header s).stdout = s.stdout ∧
    next_header (after_header s) = parse_header ((s.inbound.drop 12).take 12) ∧
    ∀ fuel, net_process_loop c K (fuel + 1) s = net_process_loop c K fuel (after_header s) := by
  obtain ⟨_, _, _, _, _, _, n7, n8, n9, n10, _, _, _, _, _⟩ := distinct_tags_ne c hd
  have h1 : ¬ (next_header s).type = c.VERSION_TYPE := by rw [htype]; exact n7
  have h2 : ¬ (next_header s).type = c.SPONSOR_TYPE := by rw [htype]; exact n8
  have h3 : ¬ (next_header s).type = c.MAX_VERSION_TYPE := by rw [htype]; exact n9
  have h4 : ¬ (next_header s).type = c.BLOCK_TYPE := by rw [htype]; exact n10
  have h : net_process_iter c K s = (after_header s, none) := by
    rw [net_process_iter_of_header c K s hlen, if_neg (by simpa using hmagic),
      if_neg (by omega)]
    simp only [dispatch, if_neg h1, if_neg h2, if_neg h3, if_neg h4, if_pos htype]
  exact ⟨h, rfl, rfl, rfl, rfl, rfl, rfl, net_process_loop_of_continue c K s _ h⟩

/-- Witness of C18 on `endBlockStream`, whose first header declares five
bytes: the next header is the `END_BLOCK` header that follows at once. -/
theorem C18_end_block_is_noop_witness :
    (next_header (sampleClient endBlockStream)).length = 5 ∧
    net_process_iter sampleConsts sampleCompressor (sampleClient endBlockStream) =
      (after_header (sampleClient endBlockStream), none) ∧
    next_header (after_header (sampleClient endBlockStream)) =
      { magic := sampleConsts.RELAY_MAGIC_BYTES, type := sampleConsts.END_BLOCK_TYPE,
        length := 0 } :=
  ⟨by decide,
   (C18_end_block_is_noop sampleConsts sampleCompressor (sampleClient endBlockStream)
      (by decide) (by decide) (by decide) (by decide) (by decide)).1,
   by decide⟩

/-- C17 as stated fails: on four of the six failures the reason handed to
`disconnect` is not the string the specification names.  The samples are a
length of 1,000,001, the unused tag 5, a `MAX_VERSION` payload equal to the
own version string and a `TRANSACTION` of 101 bytes that the sample compressor
refuses. -/
theorem C17_reasons_differ_from_spec :
    ((net_process_iter sampleConsts sampleCompressor (sampleClient oversizeStream)).2 =
        some "got message too large" ∧
      (net_process_iter sampleConsts sampleCompressor (sampleClient oversizeStream)).2 ≠
        some "message too large") ∧
    ((net_process_iter sampleConsts sampleCompressor (sampleClient unknownTypeStream)).2 =
        some "got unknown message type" ∧
      (net_process_iter sampleConsts sampleCompressor (sampleClient unknownTypeStream)).2 ≠
        some "unknown message type") ∧
    (next_payload (sampleClient maxVersionSameStream) = sampleConsts.VERSION_STRING ∧
      (net_process_iter sampleConsts sampleCompressor (sampleClient maxVersionSameStream)).2 =
        some "got MAX_VERSION of same version as us" ∧
      (net_process_iter sampleConsts sampleCompressor (sampleClient maxVersionSameStream)).2 ≠
        some "max version equals own version") ∧
    ((net_process_iter sampleConsts sampleCompressor (sampleClient transactionRefusedStream)).2 =
        some "got freely relayed transaction too large" ∧
      (net_process_iter sampleConsts sampleCompressor (sampleClient transactionRefusedStream)).2 ≠
        some "loose transaction too large") := by
  decide

/-- C17 (amended): the reason handed to `disconnect` is "invalid magic bytes"
for a wrong magic, "got message too large" for a length above 1,000,000, "got
unknown message type" for a tag outside the six known ones, "got MAX_VERSION
of same version as us" for a `MAX_VERSION` payload equal to the own version
string, "got freely relayed transaction too large" for a `TRANSACTION` whose
size the compressor refuses, and "unknown version string" for a `VERSION`
payload that does not agree with the own version string. -/
theorem C17_disconnect_reasons (c : RelayConsts) (K : RelayNodeCompressor σ)
    (s : RelayNetworkClient σ) (hV : ∀ b ∈ c.VERSION_STRING, b ≠ 0) (hd : distinct_tags c)
    (hlen : 4 * 3 ≤ s.inbound.length) :
    ((next_header s).magic ≠ c.RELAY_MAGIC_BYTES →
      (net_process_iter c K s).2 = some "invalid magic bytes") ∧
    ((next_header s).magic = c.RELAY_MAGIC_BYTES →
      ((next_header s).length > 1000000 →
        (net_process_iter c K s).2 = some "got message too large") ∧
      ((next_header s).length ≤ 1000000 →
        ((next_header s).type ≠ c.VERSION_TYPE → (next_header s).type ≠ c.SPONSOR_TYPE →
          (next_header s).type ≠ c.MAX_VERSION_TYPE → (next_header s).type ≠ c.BLOCK_TYPE →
          (next_header s).type ≠ c.END_BLOCK_TYPE →
          (next_header s).type ≠ c.TRANSACTION_TYPE →
          (net_process_iter c K s).2 = some "got unknown message type") ∧
        ((next_header s).type = c.MAX_VERSION_TYPE →
          4 * 3 + (next_header s).length ≤ s.inbound.length →
          next_payload s = c.VERSION_STRING →
          (net_process_iter c K s).2 = some "got MAX_VERSION of same version as us") ∧
        ((next_header s).type = c.TRANSACTION_TYPE →
          (K.maybe_recv_tx_of_size s.compressor (next_header s).length true).1 = false →
          (net_process_iter c K s).2 = some "got freely relayed transaction too large") ∧
        ((next_header s).type = c.VERSION_TYPE →
          4 * 3 + (next_header s).length ≤ s.inbound.length →
          ¬ agrees_with_version c (next_payload s) →
          (net_process_iter c K s).2 = some "unknown version string"))) := by
  obtain ⟨_, n2, n3, _, _, _, _, _, _, _, n11, n12, n13, n14, n15⟩ := distinct_tags_ne c hd
  have hhead := net_process_iter_of_header c K s hlen
  constructor
  · intro hmagic
    rw [hhead, if_pos hmagic]
  · intro hmagic
    rw [if_neg (by simpa using hmagic)] at hhead
    constructor
    · intro hbig
      rw [hhead, if_pos hbig]
    · intro hsize
      rw [if_neg (by omega)] at hhead
      refine ⟨?_, ?_, ?_, ?_⟩
      · intro h1 h2 h3 h4 h5 h6
        rw [hhead]
        simp only [dispatch, if_neg h1, if_neg h2, if_neg h3, if_neg h4, if_neg h5, if_neg h6]
      · intro htype hfull hp
        rw [hhead, dispatch_max_version c K s hV htype n2 n3 hfull,
          if_pos (by rw [hp]; exact agrees_with_version_self c)]
      · intro htype href
        have h1 : ¬ (next_header s).type = c.VERSION_TYPE := by rw [htype]; exact n11
        have h2 : ¬ (next_header s).type = c.SPONSOR_TYPE := by rw [htype]; exact n12
        have h3 : ¬ (next_header s).type = c.MAX_VERSION_TYPE := by rw [htype]; exact n13
        have h4 : ¬ (next_header s).type = c.BLOCK_TYPE := by rw [htype]; exact n14
        have h5 : ¬ (next_header s).type = c.END_BLOCK_TYPE := by rw [htype]; exact n15
        rw [hhead]
        simp only [dispatch, if_neg h1, if_neg h2, if_neg h3, if_neg h4, if_neg h5,
          if_pos htype, after_header, href, Bool.not_false, if_true]
      · intro htype hfull hag
        rw [hhead, dispatch_version c K s hV htype hfull, if_neg hag]

/-- Witness of C17 (amended) on `oversizeStream`. -/
theorem C17_disconnect_reasons_witness :
    (next_header (sampleClient oversizeStream)).length > 1000000 ∧
    (net_process_iter sampleConsts sampleCompressor (sampleClient oversizeStream)).2 =
      some "got message too large" :=
  ⟨by decide,
   ((C17_disconnect_reasons sampleConsts sampleCompressor (sampleClient oversizeStream)
      (by decide) (by decide) (by decide)).2 (by decide)).1 (by decide)⟩

/-! ## The bridge: blocks -/

/-- C16: a block delivered by the relay side makes exactly one call,
`p2p.receive_block(bytes)` with the same bytes, and none to the relay client,
whose state is unchanged; a block delivered by the P2P side makes exactly one
call, `relayClient->receive_block(bytes)` with the same bytes, and none to the
P2P client. -/
theorem C16_block_routing (c : RelayConsts) (K : RelayNodeCompressor σ)
    (getblockhash : List Nat → Nat → List Nat) (w : Bridge σ) (bytes : List Nat) :
    (relay_provide_block w bytes).calls = w.calls ++ [Call.p2p_receive_block bytes] ∧
    (relay_provide_block w bytes).relayClient = w.relayClient ∧
    (p2p_provide_block c K getblockhash w bytes).calls =
      w.calls ++ [Call.relay_receive_block bytes] ∧
    (p2p_provide_block c K getblockhash w bytes).relayClient =
      receive_block c K getblockhash w.relayClient bytes :=
  ⟨rfl, rfl, rfl, rfl⟩

/-! ## The host buffer -/

theorem main_copy_host_fits_iff (argv3 : List Nat) :
    (main_copy_host argv3).isSome = true ↔ argv3.length < relay.length := by
  have hr : relay.length = 33 := by decide
  unfold main_copy_host memcpy host_size
  rw [hr]
  simp only [List.length_replicate, show ¬ ((4 : Nat) = 3) by decide, if_false]
  by_cases h : argv3.length + 1 ≤ max argv3.length 33
  · rw [if_pos h]
    simp only [Option.isSome_some, true_iff]
    omega
  · rw [if_neg h]
    simp only [Option.isSome_none, Bool.false_eq_true, false_iff]
    omega

/-- C19 fails for a host name of 33 characters or more: for `longHostName`
(33 characters) the buffer `host` is declared with 33 bytes and `memcpy` is
asked to write 34, one past its end.  In general the copy stays inside `host`
exactly when the host name is shorter than `strlen(relay)`, which is 33. -/
theorem C19_host_copy_overflows :
    longHostName.length = 33 ∧
    host_size 4 longHostName = 33 ∧
    longHostName.length + 1 = 34 ∧
    main_copy_host longHostName = none ∧
    main_copy_host fittingHostName = some (c_str fittingHostName) ∧
    (∀ argv3 : List Nat, (main_copy_host argv3).isSome = true ↔ argv3.length < 33) := by
  refine ⟨by decide, by decide, by decide, by decide, by decide, ?_⟩
  intro argv3
  have hr : relay.length = 33 := by decide
  rw [main_copy_host_fits_iff, hr]

end RelayNode
